import Mathlib

/-
Verification development for the OpenStack resource cleanup tool
(src/openstack_cleanup.py).  The Python source is shallowly embedded:
pure helpers become Lean functions, the stateful cleaners become
trace-producing functions over an explicit backend oracle, and Python
exceptions become an explicit `Exc` value threaded through `Option` /
`Except` results.
-/

namespace OSC

/-! ## String helpers mirroring the Python string operations used by the tool -/

/-- Python `p == the first characters of l` on character lists. -/
def startsWithL : List Char → List Char → Bool
  | [], _ => true
  | _ :: _, [] => false
  | p :: ps, c :: cs => p == c && startsWithL ps cs

/-- Python substring containment (`pat in s`) on character lists. -/
def infixL (p : List Char) : List Char → Bool
  | [] => startsWithL p []
  | c :: cs => startsWithL p (c :: cs) || infixL p cs

/-- Python `pat in s` (contiguous substring test). -/
def strContains (s pat : String) : Bool :=
  infixL pat.toList s.toList

/-- Python `s.lower()` (ASCII is all the tool compares). -/
def lowerStr (s : String) : String :=
  String.mk (s.toList.map Char.toLower)

/-- Python `s.upper()` (ASCII is all the tool compares). -/
def upperStr (s : String) : String :=
  String.mk (s.toList.map Char.toUpper)

/-- Characters stripped by Python `str.strip()` (the whitespace the tool meets). -/
def isSpaceChar (c : Char) : Bool :=
  c == ' ' || c == '\t' || c == '\n' || c == '\r'

/-- Python `line.strip()`. -/
def pyStrip (s : String) : String :=
  String.mk (((s.toList.dropWhile isSpaceChar).reverse.dropWhile isSpaceChar).reverse)

/-- Helper for `pySplit`. -/
def pySplitAux (sep : Char) (cur : List Char) : List Char → List String
  | [] => [String.mk cur.reverse]
  | c :: cs =>
    if c == sep then String.mk cur.reverse :: pySplitAux sep [] cs
    else pySplitAux sep (c :: cur) cs

/-- Python `s.split(sep)` for a one-character separator. -/
def pySplit (s : String) (sep : Char) : List String :=
  pySplitAux sep [] s.toList

/-! ## Exceptions and the tool's error classification

A Python exception is modelled by the two strings the tool inspects
(`str(type(e))` and `str(e)`) together with whether the object is an
instance of `openstack.exceptions.ResourceNotFound` (the tool's
`except os_exceptions.ResourceNotFound` clauses dispatch on that). -/

structure Exc where
  typeName : String
  message : String
  isResourceNotFound : Bool
  deriving Repr, DecidableEq

/-- Source `is_not_found_error` (line 275), also the inline check
`"NotFound" in str(type(e)) or "404" in str(e)` repeated through the cleaners. -/
def is_not_found_error (e : Exc) : Bool :=
  strContains e.typeName "NotFound" || strContains e.message "404"

/-- Source `is_conflict_error` (line 279). -/
def is_conflict_error (e : Exc) : Bool :=
  strContains e.typeName "ConflictException" || strContains e.message "409" ||
    strContains e.typeName "Conflict"

/-- Router delete handler check (line 803): `"Conflict" in str(type(e)) or "409" in str(e)`. -/
def routerConflictCheck (e : Exc) : Bool :=
  strContains e.typeName "Conflict" || strContains e.message "409"

/-- Network delete handler check (lines 845-846). -/
def networkConflictCheck (e : Exc) : Bool :=
  strContains e.typeName "NetworkInUse" || strContains e.message "409" ||
    strContains (lowerStr e.message) "in use" ||
    strContains (lowerStr e.message) "ports still in use"

/-- Security-group delete handler check (lines 881-882). -/
def secgroupConflictCheck (e : Exc) : Bool :=
  strContains e.typeName "Conflict" || strContains e.message "409" ||
    strContains (lowerStr e.message) "in use"

/-- Load-balancer delete handler check (line 959). -/
def lbConflictCheck (e : Exc) : Bool :=
  strContains e.typeName "ConflictException" || strContains e.message "409"

/-- A genuine SDK not-found error: an `os_exceptions.ResourceNotFound` instance.
The SDK class is named `ResourceNotFound`/`NotFoundException`, so its type name
always contains the word `NotFound`. -/
def genuineNotFound (e : Exc) : Prop :=
  e.isResourceNotFound = true ∧ strContains e.typeName "NotFound" = true

/-! ## Resource discovery: `build_resource_dict` (lines 309-342) -/

/-- A resource object as returned by the SDK listing calls: the attributes
`build_resource_dict` reads.  `none` in `name`/`descr` means the attribute is
missing (so `getattr` falls back to its default); `fipAddr` is
`floating_ip_address` when present. -/
structure PyRes where
  rid : String
  name : Option String
  descr : Option String
  fipAddr : Option String
  deriving Repr, DecidableEq

/-- Line 322: `resdesc[:50] + "..." if len(resdesc) > 50 else resdesc`. -/
def truncDesc50 (d : String) : String :=
  if d.toList.length > 50 then String.mk (d.toList.take 50) ++ "..." else d

/-- The display name computed in `build_resource_dict`: `getattr(res, 'name', resid)`,
overridden for floating-IP-shaped resources by the address plus an optional
truncated-description annotation (lines 314-323). -/
def resDisplayName (r : PyRes) : String :=
  match r.fipAddr with
  | some addr =>
    let d := r.descr.getD ""
    addr ++ (if d == "" then "" else " (desc: " ++ truncDesc50 d ++ ")")
  | none => r.name.getD r.rid

/-- The retention test of line 339:
`if resname and (resource_name_re.search(resname) or (resdesc and resource_name_re.search(resdesc)))`.
`pat` is the compiled pattern's `search`, as a boolean predicate. -/
def keptRes (pat : String → Bool) (r : PyRes) : Bool :=
  let resname := resDisplayName r
  let resdesc := r.descr.getD ""
  resname != "" && (pat resname || (resdesc != "" && pat resdesc))

/-- Python `dict[k] = v`: replace the value in place if the key exists, else
append (insertion order preserved, as Python dicts do). -/
def insertOrReplace (k v : String) : List (String × String) → List (String × String)
  | [] => [(k, v)]
  | (k2, v2) :: rest =>
    if k2 == k then (k, v) :: rest else (k2, v2) :: insertOrReplace k v rest

/-- Accumulator loop of `build_resource_dict`. -/
def build_resource_dict_aux (pat : String → Bool) (acc : List (String × String)) :
    List PyRes → List (String × String)
  | [] => acc
  | r :: rest =>
    build_resource_dict_aux pat
      (if keptRes pat r then insertOrReplace r.rid (resDisplayName r) acc else acc) rest

/-- Source `build_resource_dict` (lines 309-342): reduce a resource listing to
the `{id -> display_name}` dictionary of pattern-matching resources. -/
def build_resource_dict (pat : String → Bool) (l : List PyRes) : List (String × String) :=
  build_resource_dict_aux pat [] l

/-- The Python regex `^test-.*$` from the spec examples.  `re.search` with this
pattern on a newline-free string succeeds exactly when the string starts with
`test-`; the example strings are newline-free. -/
def patTestPrefix (s : String) : Bool :=
  startsWithL "test-".toList s.toList

/-! ## Pre-supplied resource list: `get_resources_from_cleanup_log` (lines 1116-1136) -/

/-- `resources[restype][resid] = resname` on the nested dictionary. -/
def logInsert : List (String × List (String × String)) → String → String → String →
    List (String × List (String × String))
  | [], t, i, n => [(t, [(i, n)])]
  | (t2, m) :: rest, t, i, n =>
    if t2 == t then (t2, insertOrReplace i n m) :: rest
    else (t2, m) :: logInsert rest t i n

/-- Line loop of `get_resources_from_cleanup_log`.  The accumulator carries the
nested resource dictionary and the error lines printed so far.  A line with
fewer than three `|`-separated fields raises `IndexError` in the source and
aborts the load: that is the `none` result. -/
def logLoadAux (acc : List (String × List (String × String)) × List String) :
    List String → Option (List (String × List (String × String)) × List String)
  | [] => some acc
  | line :: rest =>
    match pySplit (pyStrip line) '|' with
    | t :: n :: i :: _ =>
      if i == "" then
        if t != "keypairs" then
          -- error printed, but the line is still inserted under the empty id
          logLoadAux
            (logInsert acc.1 t "" n,
             acc.2 ++ ["Error: resource type " ++ t ++ " has no ID - ignored!!!"]) rest
        else
          logLoadAux (logInsert acc.1 t "0" n, acc.2) rest
      else
        logLoadAux (logInsert acc.1 t i n, acc.2) rest
    | _ => none

/-- Source `get_resources_from_cleanup_log` (lines 1116-1136), over the list of
lines of the file. -/
def get_resources_from_cleanup_log (lines : List String) :
    Option (List (String × List (String × String)) × List String) :=
  logLoadAux ([], []) lines

/-! ## Events

A cleaner run is modelled by the list of observable events it produces:
the backend calls it issues (tagged with the issuing cleaner's
`self.category`) and the per-resource outcome reports
(`report_deletion` / `report_not_found` / `report_error`).
Plain progress prints are not modelled. -/

inductive Ev where
  | callDelete (cat rtype rid : String)
  | callUpdate (cat rtype rid : String)
  | callRemoveInterface (cat rid subnetId : String)
  | callGet (cat rtype rid : String)
  | callList (cat rtype : String)
  | callWait (cat rid : String)
  | rptDeleted (rtype name : String) (dry : Bool)
  | rptNotFound (rtype name : String)
  | rptError (rtype name reason : String)
  deriving Repr, DecidableEq

/-- The mutating backend calls: delete, update, remove-interface. -/
def isMutating : Ev → Bool
  | .callDelete _ _ _ => true
  | .callUpdate _ _ _ => true
  | .callRemoveInterface _ _ _ => true
  | _ => false

/-- A per-resource outcome report. -/
def isReport : Ev → Bool
  | .rptDeleted _ _ _ => true
  | .rptNotFound _ _ => true
  | .rptError _ _ _ => true
  | _ => false

/-- The outcome reports of a trace, in order. -/
def reportsOf (tr : List Ev) : List Ev :=
  tr.filter isReport

/-- The category tag of a backend call (empty for reports). -/
def catOf : Ev → String
  | .callDelete c _ _ => c
  | .callUpdate c _ _ => c
  | .callRemoveInterface c _ _ => c
  | .callGet c _ _ => c
  | .callList c _ => c
  | .callWait c _ => c
  | _ => ""

/-- A delete call for a security group. -/
def isSecgroupDelete : Ev → Bool
  | .callDelete _ rt _ => rt == "SECURITY GROUP"
  | _ => false

/-- A mutating call issued by the Compute cleaner. -/
def isComputeMutating (e : Ev) : Bool :=
  isMutating e && (catOf e == "Compute")

/-- A delete call for a router. -/
def isRouterDelete : Ev → Bool
  | .callDelete _ rt _ => rt == "ROUTER"
  | _ => false

/-- A delete call for a floating IP. -/
def isFipDelete : Ev → Bool
  | .callDelete _ rt _ => rt == "FLOATING IP"
  | _ => false

/-- A router gateway-clearing update call. -/
def isGatewayUpdate : Ev → Bool
  | .callUpdate _ _ _ => true
  | _ => false

/-- A remove-interface call. -/
def isIfaceRemove : Ev → Bool
  | .callRemoveInterface _ _ _ => true
  | _ => false

/-- A report of a would-delete outcome (dry-run `report_deletion`). -/
def isWouldDelete : Ev → Bool
  | .rptDeleted _ _ true => true
  | _ => false

/-! ## Backend objects the cleaners read -/

/-- A compute server, reduced to the floating addresses that
`_get_instance_floating_ips` extracts from it. -/
structure Server where
  fips : List String
  deriving Repr, DecidableEq

/-- A floating IP object: id, address, description (empty when absent), and the
`router_id` / `port_id` attributes read during router cleanup.  `none` models a
missing or falsy attribute. -/
structure Fip where
  fid : String
  address : String
  descr : String
  routerId : Option String
  portId : Option String
  deriving Repr, DecidableEq

/-- A port object: id, name, `device_owner`, `device_id`, and its `fixed_ips`
as (subnet_id, ip_address) pairs. -/
structure Port where
  pid : String
  pname : String
  deviceOwner : String
  deviceId : String
  fixedIps : List (String × String)
  deriving Repr, DecidableEq

/-- A router object, reduced to the truthiness of `external_gateway_info`. -/
structure Router where
  hasGateway : Bool
  deriving Repr, DecidableEq

/-- A load balancer object, reduced to its `provisioning_status`. -/
structure LBInfo where
  status : String
  deriving Repr, DecidableEq

/-- The backend oracle: the result of every remote call a cleaner can issue.
`Option Exc` results: `none` is success, `some e` raises `e`.  `Except` results
either raise or return an object.  Calls inside retry loops take the attempt
(or polling round) index, so eventually-consistent behaviour is expressible. -/
structure Backend where
  -- AdvancedServicesCleaner
  heatAvail : Bool
  dnsAvail : Bool
  getStack : String → Option Exc
  deleteStack : String → Option Exc
  waitDeleteStack : String → Option Exc
  deleteZone : String → Option Exc
  -- ComputeCleaner
  getServer : String → Except Exc Server
  computeIpsList : Except Exc (List Fip)
  deleteFipCompute : String → Option Exc
  deleteServer : String → Option Exc
  waitGetServer : Nat → String → Option Exc
  deleteFlavor : String → Option Exc
  deleteKeypair : String → Option Exc
  deleteImage : String → Option Exc
  -- StorageCleaner
  getVolume : String → Option Exc
  deleteVolume : String → Option Exc
  getSnapshot : String → Option Exc
  deleteSnapshot : String → Option Exc
  -- LoadBalancerCleaner
  getLB : String → Nat → Except Exc LBInfo
  deleteLB : String → Nat → Option Exc
  monitorPresent : Bool
  verifyGetLB : String → Nat → Option Exc
  -- NetworkCleaner
  getIp : String → Except Exc Fip
  deleteIpNet : String → Option Exc
  sweepIpsList : Except Exc (List Fip)
  sweepPortsList : Except Exc (List Port)
  deletePortSweep : String → Option Exc
  getRouter : String → Except Exc Router
  routerIpsList : String → Except Exc (List Fip)
  getPortForFip : String → Except Exc Port
  deleteIpRouter : String → Option Exc
  clearGateway : String → Option Exc
  routerPortsList : String → Except Exc (List Port)
  deleteRouter : String → Option Exc
  getNetworkDry : String → Nat → Option Exc
  networkPortsList : String → Nat → Except Exc (List Port)
  deleteNetwork : String → Nat → Option Exc
  getSecgroupDry : String → Nat → Option Exc
  deleteSecgroup : String → Nat → Option Exc

/-- The per-cleaner resource inventory (`self.resources` after `__init__`),
each kind an ordered `{id -> display_name}` association list. -/
structure Inventory where
  heatStacks : List (String × String)
  dnsZones : List (String × String)
  instances : List (String × String)
  flavors : List (String × String)
  keypairs : List (String × String)
  images : List (String × String)
  volumes : List (String × String)
  snapshots : List (String × String)
  loadbalancers : List (String × String)
  floatingIps : List (String × String)
  secGroups : List (String × String)
  networks : List (String × String)
  routers : List (String × String)

/-- Iterate a per-resource step over an `{id -> name}` inventory slice
(`for id, name in ...items()`), concatenating the event traces. -/
def eachRes (step : String → String → List Ev) : List (String × String) → List Ev
  | [] => []
  | (i, n) :: rest => step i n ++ eachRes step rest

/-! ## AdvancedServicesCleaner.clean (lines 1028-1075) -/

/-- The Heat/DNS exception handler (lines 1050-1054, 1069-1073):
`if "NotFound" in str(e): report_not_found else report_error`.
Note it inspects the message, not the type name. -/
def advNotFoundReport (rtype name : String) (e : Exc) : Ev :=
  if strContains e.message "NotFound" then .rptNotFound rtype name
  else .rptError rtype name e.message

/-- One Heat stack (lines 1038-1054): dry-run reports directly; otherwise
`get_stack`, `delete_stack`, `wait_for_delete`, any raise handled by the
message-based NotFound check. -/
def heatStep (b : Backend) (dry : Bool) (sid sname : String) : List Ev :=
  if dry then [.rptDeleted "HEAT STACK" sname true]
  else
    [.callGet "AdvancedServices" "HEAT STACK" sid] ++
    match b.getStack sid with
    | some e => [advNotFoundReport "HEAT STACK" sname e]
    | none =>
      [.callDelete "AdvancedServices" "HEAT STACK" sid] ++
      match b.deleteStack sid with
      | some e => [advNotFoundReport "HEAT STACK" sname e]
      | none =>
        [.callWait "AdvancedServices" sid] ++
        match b.waitDeleteStack sid with
        | some e => [advNotFoundReport "HEAT STACK" sname e]
        | none => [.rptDeleted "HEAT STACK" sname false]

/-- One DNS zone (lines 1062-1073). -/
def dnsStep (b : Backend) (dry : Bool) (zid zname : String) : List Ev :=
  if dry then [.rptDeleted "DNS ZONE" zname true]
  else
    [.callDelete "AdvancedServices" "DNS ZONE" zid] ++
    match b.deleteZone zid with
    | some e => [advNotFoundReport "DNS ZONE" zname e]
    | none => [.rptDeleted "DNS ZONE" zname false]

/-- `AdvancedServicesCleaner.clean`: returns immediately when no optional
service is available; Heat stacks are cleaned before DNS zones. -/
def advClean (b : Backend) (dry : Bool) (inv : Inventory) : List Ev :=
  if !(b.heatAvail || b.dnsAvail) then []
  else
    (if b.heatAvail then eachRes (heatStep b dry) inv.heatStacks else []) ++
    (if b.dnsAvail then eachRes (dnsStep b dry) inv.dnsZones else [])

/-! ## StorageCleaner.clean (lines 397-432) -/

/-- The `except os_exceptions.ResourceNotFound / except Exception` pair used by
the storage and load-balancer cleaners: dispatch on the instance check. -/
def instanceCatchReport (rtype name : String) (e : Exc) : Ev :=
  if e.isResourceNotFound then .rptNotFound rtype name
  else .rptError rtype name e.message

/-- One volume (lines 402-413): dry-run checks existence with a get; a live run
issues the force delete. -/
def volumeStep (b : Backend) (dry : Bool) (vid vname : String) : List Ev :=
  if dry then
    [.callGet "Storage" "VOLUME" vid] ++
    match b.getVolume vid with
    | none => [.rptDeleted "VOLUME" vname true]
    | some e => [instanceCatchReport "VOLUME" vname e]
  else
    [.callDelete "Storage" "VOLUME" vid] ++
    match b.deleteVolume vid with
    | none => [.rptDeleted "VOLUME" vname false]
    | some e => [instanceCatchReport "VOLUME" vname e]

/-- One volume snapshot (lines 418-430). -/
def snapshotStep (b : Backend) (dry : Bool) (sid sname : String) : List Ev :=
  if dry then
    [.callGet "Storage" "VOLUME SNAPSHOT" sid] ++
    match b.getSnapshot sid with
    | none => [.rptDeleted "VOLUME SNAPSHOT" sname true]
    | some e => [instanceCatchReport "VOLUME SNAPSHOT" sname e]
  else
    [.callDelete "Storage" "VOLUME SNAPSHOT" sid] ++
    match b.deleteSnapshot sid with
    | none => [.rptDeleted "VOLUME SNAPSHOT" sname false]
    | some e => [instanceCatchReport "VOLUME SNAPSHOT" sname e]

/-- `StorageCleaner.clean`: volumes, then volume snapshots. -/
def storageClean (b : Backend) (dry : Bool) (inv : Inventory) : List Ev :=
  eachRes (volumeStep b dry) inv.volumes ++ eachRes (snapshotStep b dry) inv.snapshots

/-! ## ComputeCleaner.clean (lines 462-592) -/

/-- `_delete_floating_ips` inner loop (lines 516-524): find the first listed
floating IP with the given address and delete it; ANY exception, a NotFound
included, is reported as an error. -/
def fipDeleteStepCompute (b : Backend) (fipList : List Fip) (addr : String) : List Ev :=
  match fipList.find? (fun f => f.address == addr) with
  | none => []
  | some f =>
    [.callDelete "Compute" "FLOATING IP" f.fid] ++
    match b.deleteFipCompute f.fid with
    | none => [.rptDeleted "FLOATING IP" addr false]
    | some e => [.rptError "FLOATING IP" addr e.message]

/-- The instance-loop exception handler (lines 483-488): the inline
`"NotFound" in str(type(e)) or "404" in str(e)` check; the boolean says
whether the instance stays in `deleting_instances`. -/
def instExcHandle (iname : String) (e : Exc) : List Ev × Bool :=
  if is_not_found_error e then ([.rptNotFound "INSTANCE" iname], false)
  else ([.rptError "INSTANCE" iname e.message], true)

/-- One instance (lines 467-488): get the server, in dry-run report its
floating IPs and itself; in a live run delete the attached floating IPs
(listing them only when there are any) and then the server.  Returns the trace
and whether the instance remains in `deleting_instances`. -/
def instanceStep (b : Backend) (dry : Bool) (iid iname : String) : List Ev × Bool :=
  let ge : List Ev := [.callGet "Compute" "INSTANCE" iid]
  match b.getServer iid with
  | .error e =>
    let h := instExcHandle iname e
    (ge ++ h.1, h.2)
  | .ok srv =>
    if dry then
      (ge ++ srv.fips.map (fun a => Ev.rptDeleted "FLOATING IP" a true) ++
        [.rptDeleted "INSTANCE" iname true], true)
    else
      let delPart : List Ev × Bool :=
        ([.callDelete "Compute" "INSTANCE" iid] ++
          (match b.deleteServer iid with
           | none => []
           | some e => (instExcHandle iname e).1),
         match b.deleteServer iid with
         | none => true
         | some e => (instExcHandle iname e).2)
      if srv.fips.isEmpty then
        (ge ++ delPart.1, delPart.2)
      else
        match b.computeIpsList with
        | .error e =>
          let h := instExcHandle iname e
          (ge ++ [.callList "Compute" "FLOATING IP"] ++ h.1, h.2)
        | .ok fl =>
          (ge ++ [.callList "Compute" "FLOATING IP"] ++
            (srv.fips.map (fipDeleteStepCompute b fl)).flatten ++ delPart.1, delPart.2)

/-- The instance loop of `clean` (lines 466-488), also computing the
`deleting_instances` dictionary left for the wait loop. -/
def instancesPhase (b : Backend) (dry : Bool) :
    List (String × String) → List Ev × List (String × String)
  | [] => ([], [])
  | (i, n) :: rest =>
    let s := instanceStep b dry i n
    let r := instancesPhase b dry rest
    (s.1 ++ r.1, (if s.2 then [(i, n)] else []) ++ r.2)

/-- One polling round of `_wait_for_instance_deletion` (lines 533-541). -/
def waitRound (b : Backend) (round : Nat) :
    List (String × String) → List Ev × List (String × String)
  | [] => ([], [])
  | (i, n) :: rest =>
    let r := waitRound b round rest
    match b.waitGetServer round i with
    | none => (Ev.callGet "Compute" "INSTANCE" i :: r.1, (i, n) :: r.2)
    | some e =>
      if is_not_found_error e then
        (Ev.callGet "Compute" "INSTANCE" i :: Ev.rptDeleted "INSTANCE" n false :: r.1, r.2)
      else (Ev.callGet "Compute" "INSTANCE" i :: r.1, (i, n) :: r.2)

/-- `_wait_for_instance_deletion` (lines 526-547): bounded polling, at most
`DEFAULT_INSTANCE_DELETE_RETRIES = 30` rounds. -/
def waitLoop (b : Backend) : Nat → Nat → List (String × String) → List Ev
  | _, 0, _ => []
  | _, _ + 1, [] => []
  | round, fuel + 1, (i, n) :: deleting =>
    let r := waitRound b round ((i, n) :: deleting)
    r.1 ++ waitLoop b (round + 1) fuel r.2

/-- One flavor (lines 549-562), using the inline string NotFound check. -/
def flavorStep (b : Backend) (dry : Bool) (fid fname : String) : List Ev :=
  if dry then [.rptDeleted "FLAVOR" fname true]
  else
    [.callDelete "Compute" "FLAVOR" fid] ++
    match b.deleteFlavor fid with
    | none => [.rptDeleted "FLAVOR" fname false]
    | some e =>
      if is_not_found_error e then [.rptNotFound "FLAVOR" fname]
      else [.rptError "FLAVOR" fname e.message]

/-- One keypair (lines 564-577); keypairs are deleted by name. -/
def keypairStep (b : Backend) (dry : Bool) (_kid kname : String) : List Ev :=
  if dry then [.rptDeleted "KEYPAIR" kname true]
  else
    [.callDelete "Compute" "KEYPAIR" kname] ++
    match b.deleteKeypair kname with
    | none => [.rptDeleted "KEYPAIR" kname false]
    | some e =>
      if is_not_found_error e then [.rptNotFound "KEYPAIR" kname]
      else [.rptError "KEYPAIR" kname e.message]

/-- One image (lines 579-592). -/
def imageStep (b : Backend) (dry : Bool) (iid iname : String) : List Ev :=
  if dry then [.rptDeleted "IMAGE" iname true]
  else
    [.callDelete "Compute" "IMAGE" iid] ++
    match b.deleteImage iid with
    | none => [.rptDeleted "IMAGE" iname false]
    | some e =>
      if is_not_found_error e then [.rptNotFound "IMAGE" iname]
      else [.rptError "IMAGE" iname e.message]

/-- `ComputeCleaner.clean`: instances (with attached floating IPs), the
deletion wait loop (live runs only), then flavors, keypairs and images. -/
def computeClean (b : Backend) (dry : Bool) (inv : Inventory) : List Ev :=
  let ip := instancesPhase b dry inv.instances
  ip.1 ++
  (if !dry && !ip.2.isEmpty then waitLoop b 0 30 ip.2 else []) ++
  eachRes (flavorStep b dry) inv.flavors ++
  eachRes (keypairStep b dry) inv.keypairs ++
  eachRes (imageStep b dry) inv.images

/-! ## ResourceMonitor (lines 157-270) -/

/-- The resource types `verify_resource_deleted` knows how to poll
(lines 179-198). -/
def monitorKinds : List String :=
  ["INSTANCE", "SERVER", "FLAVOR", "VOLUME", "SNAPSHOT", "NETWORK", "ROUTER",
   "PORT", "SECURITY_GROUP", "LOAD BALANCER", "IMAGE"]

/-- The polling loop of `verify_resource_deleted` (lines 174-214): each round
issues the kind's get; a `ResourceNotFound` returns true, any other exception
also returns true (lines 203-210), no exception keeps polling; exhausting the
attempts returns false.  An unknown resource type issues no get at all. -/
def verifyLoop (hasGet : Bool) (get : Nat → Option Exc) : Nat → Nat → Bool
  | _, 0 => false
  | i, n + 1 =>
    if hasGet then
      match get i with
      | none => verifyLoop hasGet get (i + 1) n
      -- both except branches (ResourceNotFound and generic) return True
      | some _ => true
    else verifyLoop hasGet get (i + 1) n

/-- Source `ResourceMonitor.verify_resource_deleted` (lines 167-214), with the
kind's per-attempt get result supplied by the oracle `get`. -/
def verify_resource_deleted (dry : Bool) (rtype : String) (get : Nat → Option Exc)
    (maxAttempts : Nat) : Bool :=
  if dry then true
  else verifyLoop (monitorKinds.contains (upperStr rtype)) get 0 maxAttempts

/-- The event trace of a `verify_resource_deleted` call on a load balancer
(only get calls: verification never mutates). -/
def verifyTrace (get : Nat → Option Exc) (rid : String) : Nat → Nat → List Ev
  | _, 0 => []
  | i, n + 1 =>
    Ev.callGet "Monitor" "LOAD BALANCER" rid ::
    match get i with
    | none => verifyTrace get rid (i + 1) n
    | some _ => []

/-! ## LoadBalancerCleaner.clean (lines 914-970) -/

/-- The load balancer retry loop (lines 923-968): `retry_count` starts at
`DEFAULT_RETRY_COUNT = 3`; a PENDING_* provisioning state or a conflict on the
cascade delete consumes a retry; success reports the deletion and optionally
verifies through the monitor. -/
def lbLoop (b : Backend) (dry : Bool) (lbid lbname : String) : Nat → Nat → List Ev
  | _, 0 => []
  | attempt, rc + 1 =>
    if dry then [.rptDeleted "LOAD BALANCER" lbname true]
    else
      [.callGet "LoadBalancer" "LOAD BALANCER" lbid] ++
      match b.getLB lbid attempt with
      | .error e =>
        if e.isResourceNotFound then [.rptNotFound "LOAD BALANCER" lbname]
        else if lbConflictCheck e then
          if rc == 0 then
            [.rptError "LOAD BALANCER" lbname ("Conflict after retries: " ++ e.message)]
          else lbLoop b dry lbid lbname (attempt + 1) rc
        else [.rptError "LOAD BALANCER" lbname e.message]
      | .ok lb =>
        if ["PENDING_UPDATE", "PENDING_CREATE", "PENDING_DELETE"].contains lb.status then
          if rc == 0 then
            [.rptError "LOAD BALANCER" lbname
              ("Still in " ++ lb.status ++ " state after retries")]
          else lbLoop b dry lbid lbname (attempt + 1) rc
        else
          [.callDelete "LoadBalancer" "LOAD BALANCER" lbid] ++
          match b.deleteLB lbid attempt with
          | some e =>
            if e.isResourceNotFound then [.rptNotFound "LOAD BALANCER" lbname]
            else if lbConflictCheck e then
              if rc == 0 then
                [.rptError "LOAD BALANCER" lbname ("Conflict after retries: " ++ e.message)]
              else lbLoop b dry lbid lbname (attempt + 1) rc
            else [.rptError "LOAD BALANCER" lbname e.message]
          | none =>
            [.rptDeleted "LOAD BALANCER" lbname false] ++
            (if b.monitorPresent then verifyTrace (b.verifyGetLB lbid) lbid 0 10 else [])

/-- `LoadBalancerCleaner.clean`. -/
def lbClean (b : Backend) (dry : Bool) (inv : Inventory) : List Ev :=
  eachRes (fun i n => lbLoop b dry i n 0 3) inv.loadbalancers

/-! ## NetworkCleaner.clean (lines 649-891) -/

/-- `_delete_floating_ip`'s display string (lines 637, 641): the address plus a
30-character-truncated description annotation when a description exists. -/
def fipDisplay (f : Fip) : String :=
  f.address ++
    (if f.descr == "" then ""
     else " (desc: " ++ String.mk (f.descr.toList.take 30) ++ "...)")

/-- `_delete_floating_ip` (lines 629-647): dry-run reports; a live run deletes
by id, with the inline string NotFound check on failure. -/
def delete_floating_ip (b : Backend) (dry : Bool) (f : Fip) : List Ev :=
  if dry then [.rptDeleted "FLOATING IP" (fipDisplay f) true]
  else
    [.callDelete "Network" "FLOATING IP" f.fid] ++
    match b.deleteIpNet f.fid with
    | none => [.rptDeleted "FLOATING IP" (fipDisplay f) false]
    | some e =>
      if is_not_found_error e then [.rptNotFound "FLOATING IP" f.address]
      else [.rptError "FLOATING IP" f.address e.message]

/-- Step 1 (lines 663-674): each discovered floating IP is fetched by id and
passed to `_delete_floating_ip`; a failing get is handled with the inline
string NotFound check. -/
def fipInvStep (b : Backend) (dry : Bool) (fid name : String) : List Ev :=
  [.callGet "Network" "FLOATING IP" fid] ++
  match b.getIp fid with
  | .ok f => delete_floating_ip b dry f
  | .error e =>
    if is_not_found_error e then [.rptNotFound "FLOATING IP" name]
    else [.rptError "FLOATING IP" name e.message]

/-- Step 2 per floating IP (lines 680-693): skip ids already in the discovered
inventory; otherwise delete when the pattern matches the address, the id or
the description. -/
def sweepFipStep (pat : String → Bool) (b : Backend) (dry : Bool)
    (known : List String) (f : Fip) : List Ev :=
  if known.contains f.fid then []
  else if pat f.address || pat f.fid || pat f.descr then delete_floating_ip b dry f
  else []

/-- Step 2 (lines 676-695): the extra sweep over all floating IPs. -/
def sweepFipsPhase (pat : String → Bool) (b : Backend) (dry : Bool)
    (known : List String) : List Ev :=
  [.callList "Network" "FLOATING IP"] ++
  match b.sweepIpsList with
  | .error _ => []
  | .ok fl => (fl.map (sweepFipStep pat b dry known)).flatten

/-- The system device owners skipped by the port sweep (line 711). -/
def systemOwnersSweep : List String :=
  ["network:router_interface", "network:dhcp", "network:router_gateway"]

/-- Step 3 per port (lines 701-723): a pattern match on name or id, the
system-owner skip, then the delete with the inline NotFound check. -/
def sweepPortStep (pat : String → Bool) (b : Backend) (dry : Bool) (p : Port) : List Ev :=
  if pat p.pname || pat p.pid then
    if systemOwnersSweep.contains p.deviceOwner then []
    else if dry then [.rptDeleted "PORT" p.pname true]
    else
      [.callDelete "Network" "PORT" p.pid] ++
      match b.deletePortSweep p.pid with
      | none => [.rptDeleted "PORT" p.pname false]
      | some e =>
        if is_not_found_error e then [.rptNotFound "PORT" p.pname]
        else [.rptError "PORT" p.pname e.message]
  else []

/-- Step 3 (lines 697-725): the sweep over all ports. -/
def sweepPortsPhase (pat : String → Bool) (b : Backend) (dry : Bool) : List Ev :=
  [.callList "Network" "PORT"] ++
  match b.sweepPortsList with
  | .error _ => []
  | .ok pl => (pl.map (sweepPortStep pat b dry)).flatten

/-- The router exception handler (lines 800-806): NotFound, then the conflict
check with the `Conflict (may have dependencies)` message, then a plain error. -/
def routerExcReport (rname : String) (e : Exc) : List Ev :=
  if is_not_found_error e then [.rptNotFound "ROUTER" rname]
  else if routerConflictCheck e then
    [.rptError "ROUTER" rname ("Conflict (may have dependencies): " ++ e.message)]
  else [.rptError "ROUTER" rname e.message]

/-- The `NameError` raised at line 771 (`if router_fips:`) when the
floating-IP listing at line 745 raised, leaving `router_fips` unassigned.
(The real message quotes the variable name.) -/
def nameErrorExc : Exc :=
  { typeName := "NameError", message := "name router_fips is not defined",
    isResourceNotFound := false }

/-- The per-floating-IP membership test of lines 747-756: enter the port check
when `router_id == id` or a truthy `port_id` exists; the floating IP is
selected only when `get_port(port_id)` succeeds and the port belongs to the
router.  Returns the get events and the selection result; a missing `port_id`
makes `get_port(None)` raise, swallowed by the bare except. -/
def routerFipSelect (b : Backend) (rid : String) (f : Fip) : List Ev × Bool :=
  if f.routerId == some rid || f.portId.isSome then
    match f.portId with
    | none => ([], false)
    | some pid =>
      ([.callGet "Network" "PORT" pid],
       match b.getPortForFip pid with
       | .error _ => false
       | .ok p => p.deviceId == rid)
  else ([], false)

/-- Scan the listed floating IPs, collecting the check events and the
selected `router_fips` (lines 746-756). -/
def routerFipScan (b : Backend) (rid : String) : List Fip → List Ev × List Fip
  | [] => ([], [])
  | f :: rest =>
    let s := routerFipSelect b rid f
    let r := routerFipScan b rid rest
    (s.1 ++ r.1, (if s.2 then [f] else []) ++ r.2)

/-- Deletion of one router-bound floating IP (lines 759-765): a failure is only
printed, producing no outcome report. -/
def routerFipDelete (b : Backend) (f : Fip) : List Ev :=
  [.callDelete "Network" "FLOATING IP" f.fid] ++
  match b.deleteIpRouter f.fid with
  | none => [.rptDeleted "FLOATING IP" f.address false]
  | some _ => []

/-- The gateway-clearing step (lines 776-782): only when the router has an
external gateway; a failure is printed and processing continues. -/
def gatewayPart (b : Backend) (rid rname : String) (r : Router) : List Ev :=
  if r.hasGateway then
    [.callUpdate "Network" "ROUTER GATEWAY" rid] ++
    match b.clearGateway rid with
    | none => [.rptDeleted "Router Gateway" rname false]
    | some _ => []
  else []

/-- One interface removal (lines 787-795): by the first fixed IP's subnet;
exceptions are swallowed. -/
def ifaceStep (rid : String) (p : Port) : List Ev :=
  match p.fixedIps with
  | [] => []
  | (sub, _) :: _ => [.callRemoveInterface "Network" rid sub]

/-- One router, dry-run branch (lines 730-738 and 799). -/
def routerStepDry (b : Backend) (rid rname : String) : List Ev :=
  [.callGet "Network" "ROUTER" rid] ++
  match b.getRouter rid with
  | .error e => routerExcReport rname e
  | .ok _ =>
    [.rptDeleted "Router Gateway" rname true, .callList "Network" "PORT"] ++
    match b.routerPortsList rid with
    | .error e => routerExcReport rname e
    | .ok ports =>
      (ports.map (fun p =>
        match p.fixedIps with
        | [] => []
        | (_, ip) :: _ => [Ev.rptDeleted "Router Interface" ip true])).flatten ++
      [.rptDeleted "ROUTER" rname true]

/-- One router, live branch (lines 739-806): get the router; list the floating
IPs (a failing listing leads to the line-771 NameError, caught by the outer
handler); delete the floating IPs still bound to the router's ports; clear the
external gateway; remove the subnet interfaces; delete the router. -/
def routerStepLive (b : Backend) (rid rname : String) : List Ev :=
  [.callGet "Network" "ROUTER" rid] ++
  match b.getRouter rid with
  | .error e => routerExcReport rname e
  | .ok r =>
    [.callList "Network" "FLOATING IP"] ++
    match b.routerIpsList rid with
    | .error _ => routerExcReport rname nameErrorExc
    | .ok fl =>
      let scan := routerFipScan b rid fl
      scan.1 ++ (scan.2.map (routerFipDelete b)).flatten ++
      gatewayPart b rid rname r ++
      [.callList "Network" "PORT"] ++
      match b.routerPortsList rid with
      | .error e => routerExcReport rname e
      | .ok ports =>
        (ports.map (ifaceStep rid)).flatten ++
        [.callDelete "Network" "ROUTER" rid] ++
        match b.deleteRouter rid with
        | none => [.rptDeleted "ROUTER" rname false]
        | some e => routerExcReport rname e

/-- The system device owners skipped during network port cleanup
(lines 826-827; note `network:floatingip` appears here but not in the sweep
list). -/
def systemOwnersNet : List String :=
  ["network:dhcp", "network:router_interface", "network:router_gateway",
   "network:floatingip"]

/-- The remaining-port cleanup before a network delete attempt (lines 820-836):
failures are only printed, so only the delete calls are observable. -/
def networkPortsCleanup (b : Backend) (nid : String) (attempt : Nat) : List Ev :=
  [.callList "Network" "PORT"] ++
  match b.networkPortsList nid attempt with
  | .error _ => []
  | .ok ports =>
    (ports.map (fun p =>
      if systemOwnersNet.contains p.deviceOwner then []
      else [Ev.callDelete "Network" "PORT" p.pid])).flatten

/-- One network with its retry loop (lines 810-855): `retry_count = 3`; an
in-use/conflict error consumes a retry with a fixed delay, exhausting them
reports `Still has dependencies after retries`. -/
def networkLoop (b : Backend) (dry : Bool) (nid nname : String) : Nat → Nat → List Ev
  | _, 0 => []
  | attempt, rc + 1 =>
    if dry then
      [.callGet "Network" "NETWORK" nid] ++
      match b.getNetworkDry nid attempt with
      | none => [.rptDeleted "NETWORK" nname true]
      | some e =>
        if is_not_found_error e then [.rptNotFound "NETWORK" nname]
        else if networkConflictCheck e then
          if rc == 0 then
            [.rptError "NETWORK" nname ("Still has dependencies after retries: " ++ e.message)]
          else networkLoop b dry nid nname (attempt + 1) rc
        else [.rptError "NETWORK" nname e.message]
    else
      networkPortsCleanup b nid attempt ++
      [.callDelete "Network" "NETWORK" nid] ++
      match b.deleteNetwork nid attempt with
      | none => [.rptDeleted "NETWORK" nname false]
      | some e =>
        if is_not_found_error e then [.rptNotFound "NETWORK" nname]
        else if networkConflictCheck e then
          if rc == 0 then
            [.rptError "NETWORK" nname ("Still has dependencies after retries: " ++ e.message)]
          else networkLoop b dry nid nname (attempt + 1) rc
        else [.rptError "NETWORK" nname e.message]

/-- One security group with its retry loop (lines 865-891): `retry_count = 3`;
a conflict/in-use error consumes a retry, exhausting them reports
`Still in use after retries`. -/
def secgroupLoop (b : Backend) (dry : Bool) (sgid sgname : String) : Nat → Nat → List Ev
  | _, 0 => []
  | attempt, rc + 1 =>
    if dry then
      [.callGet "Network" "SECURITY GROUP" sgid] ++
      match b.getSecgroupDry sgid attempt with
      | none => [.rptDeleted "SECURITY GROUP" sgname true]
      | some e =>
        if is_not_found_error e then [.rptNotFound "SECURITY GROUP" sgname]
        else if secgroupConflictCheck e then
          if rc == 0 then
            [.rptError "SECURITY GROUP" sgname ("Still in use after retries: " ++ e.message)]
          else secgroupLoop b dry sgid sgname (attempt + 1) rc
        else [.rptError "SECURITY GROUP" sgname e.message]
    else
      [.callDelete "Network" "SECURITY GROUP" sgid] ++
      match b.deleteSecgroup sgid attempt with
      | none => [.rptDeleted "SECURITY GROUP" sgname false]
      | some e =>
        if is_not_found_error e then [.rptNotFound "SECURITY GROUP" sgname]
        else if secgroupConflictCheck e then
          if rc == 0 then
            [.rptError "SECURITY GROUP" sgname ("Still in use after retries: " ++ e.message)]
          else secgroupLoop b dry sgid sgname (attempt + 1) rc
        else [.rptError "SECURITY GROUP" sgname e.message]

/-- `NetworkCleaner.clean` (lines 649-891): discovered floating IPs, the
floating-IP sweep, the port sweep, routers, networks, and security groups last
(the security-group list is collected up front at lines 654-660). -/
def networkClean (pat : String → Bool) (b : Backend) (dry : Bool) (inv : Inventory) :
    List Ev :=
  eachRes (fipInvStep b dry) inv.floatingIps ++
  sweepFipsPhase pat b dry (inv.floatingIps.map Prod.fst) ++
  sweepPortsPhase pat b dry ++
  eachRes (fun i n => if dry then routerStepDry b i n else routerStepLive b i n)
    inv.routers ++
  eachRes (fun i n => networkLoop b dry i n 0 3) inv.networks ++
  eachRes (fun i n => secgroupLoop b dry i n 0 3) inv.secGroups

/-! ## OpenStackCleaners (lines 1077-1110) -/

/-- `OpenStackCleaners.clean`: the cleaners run in the fixed construction order
of line 1087: AdvancedServices, Compute, Storage, LoadBalancer, Network. -/
def cleanersClean (pat : String → Bool) (b : Backend) (dry : Bool) (inv : Inventory) :
    List Ev :=
  advClean b dry inv ++ computeClean b dry inv ++ storageClean b dry inv ++
  lbClean b dry inv ++ networkClean pat b dry inv

/-! ## Concrete base instances for witnesses and counterexamples -/

/-- A backend where every call succeeds and every listing is empty. -/
def B0 : Backend where
  heatAvail := false
  dnsAvail := false
  getStack := fun _ => none
  deleteStack := fun _ => none
  waitDeleteStack := fun _ => none
  deleteZone := fun _ => none
  getServer := fun _ => .ok { fips := [] }
  computeIpsList := .ok []
  deleteFipCompute := fun _ => none
  deleteServer := fun _ => none
  waitGetServer := fun _ _ => none
  deleteFlavor := fun _ => none
  deleteKeypair := fun _ => none
  deleteImage := fun _ => none
  getVolume := fun _ => none
  deleteVolume := fun _ => none
  getSnapshot := fun _ => none
  deleteSnapshot := fun _ => none
  getLB := fun _ _ => .ok { status := "ACTIVE" }
  deleteLB := fun _ _ => none
  monitorPresent := false
  verifyGetLB := fun _ _ => none
  getIp := fun i => .ok { fid := i, address := "10.0.0.9", descr := "",
                          routerId := none, portId := none }
  deleteIpNet := fun _ => none
  sweepIpsList := .ok []
  sweepPortsList := .ok []
  deletePortSweep := fun _ => none
  getRouter := fun _ => .ok { hasGateway := false }
  routerIpsList := fun _ => .ok []
  getPortForFip := fun _ => .ok { pid := "", pname := "", deviceOwner := "",
                                  deviceId := "", fixedIps := [] }
  deleteIpRouter := fun _ => none
  clearGateway := fun _ => none
  routerPortsList := fun _ => .ok []
  deleteRouter := fun _ => none
  getNetworkDry := fun _ _ => none
  networkPortsList := fun _ _ => .ok []
  deleteNetwork := fun _ _ => none
  getSecgroupDry := fun _ _ => none
  deleteSecgroup := fun _ _ => none

/-- The empty inventory. -/
def inv0 : Inventory where
  heatStacks := []
  dnsZones := []
  instances := []
  flavors := []
  keypairs := []
  images := []
  volumes := []
  snapshots := []
  loadbalancers := []
  floatingIps := []
  secGroups := []
  networks := []
  routers := []

/-- A genuine SDK not-found exception whose message mentions neither `NotFound`
nor `404` (e.g. the `No Stack found for <id>` message the SDK attaches). -/
def nfPlainExc : Exc :=
  { typeName := "class openstack.exceptions.ResourceNotFound",
    message := "resource gone", isResourceNotFound := true }

/-- A conflict exception as the SDK raises for a 409. -/
def conflictExc : Exc :=
  { typeName := "class openstack.exceptions.ConflictException",
    message := "409 Conflict", isResourceNotFound := false }

/-! ## Association-list membership lemmas -/

theorem mem_insertOrReplace {p : String × String} {k v : String}
    {l : List (String × String)} (h : p ∈ insertOrReplace k v l) :
    p = (k, v) ∨ p ∈ l := by
  induction l with
  | nil => simpa [insertOrReplace] using h
  | cons q rest ih =>
    obtain ⟨k2, v2⟩ := q
    by_cases hk : (k2 == k) = true
    · simp [insertOrReplace, hk] at h
      rcases h with h | h
      · exact Or.inl (by simp [h])
      · exact Or.inr (List.mem_cons_of_mem _ h)
    · simp only [insertOrReplace, hk, if_neg, Bool.false_eq_true, if_false,
        List.mem_cons] at h
      rcases h with h | h
      · exact Or.inr (by simp [h])
      · rcases ih h with h' | h'
        · exact Or.inl h'
        · exact Or.inr (List.mem_cons_of_mem _ h')

theorem self_mem_insertOrReplace (k v : String) (l : List (String × String)) :
    (k, v) ∈ insertOrReplace k v l := by
  induction l with
  | nil => simp [insertOrReplace]
  | cons q rest ih =>
    obtain ⟨k2, v2⟩ := q
    by_cases hk : (k2 == k) = true
    · simp [insertOrReplace, hk]
    · simp only [insertOrReplace, hk, Bool.false_eq_true, if_false, List.mem_cons]
      exact Or.inr ih

/-- Every entry of `build_resource_dict_aux` comes from the accumulator or from
a kept resource of the list. -/
theorem mem_build_resource_dict_aux {pat : String → Bool} {p : String × String} :
    ∀ (l : List PyRes) {acc : List (String × String)},
      p ∈ build_resource_dict_aux pat acc l →
      p ∈ acc ∨ ∃ r ∈ l, keptRes pat r = true ∧ p = (r.rid, resDisplayName r)
  | [], _, h => Or.inl h
  | r :: rest, acc, h => by
    rcases mem_build_resource_dict_aux rest h with h' | ⟨r', hr', hk, hp⟩
    · by_cases hkept : keptRes pat r = true
      · rw [if_pos hkept] at h'
        rcases mem_insertOrReplace h' with h'' | h''
        · exact Or.inr ⟨r, List.mem_cons_self r rest, hkept, h''⟩
        · exact Or.inl h''
      · rw [if_neg hkept] at h'
        exact Or.inl h'
    · exact Or.inr ⟨r', List.mem_cons_of_mem _ hr', hk, hp⟩

/-- The retention test, spelt out in propositional form. -/
theorem keptRes_iff (pat : String → Bool) (r : PyRes) :
    keptRes pat r = true ↔
      (resDisplayName r ≠ "" ∧
        (pat (resDisplayName r) = true ∨
          (r.descr.getD "" ≠ "" ∧ pat (r.descr.getD "") = true))) := by
  simp only [keptRes, Bool.and_eq_true, Bool.or_eq_true, bne_iff_ne, ne_eq]

/-- `build_resource_dict` on a single resource. -/
theorem build_resource_dict_singleton (pat : String → Bool) (r : PyRes) :
    build_resource_dict pat [r] =
      if keptRes pat r then [(r.rid, resDisplayName r)] else [] := by
  by_cases hk : keptRes pat r = true <;>
    simp [build_resource_dict, build_resource_dict_aux, insertOrReplace, hk]

/-! ## String containment lemmas -/

theorem startsWithL_append {p l : List Char} (m : List Char)
    (h : startsWithL p l = true) : startsWithL p (l ++ m) = true := by
  induction p generalizing l with
  | nil => simp [startsWithL]
  | cons c cs ih =>
    cases l with
    | nil => simp [startsWithL] at h
    | cons d ds =>
      simp only [startsWithL, Bool.and_eq_true] at h ⊢
      exact ⟨h.1, ih h.2⟩

theorem infixL_append {p l : List Char} (m : List Char) (h : infixL p l = true) :
    infixL p (l ++ m) = true := by
  induction l with
  | nil =>
    have hp : p = [] := by
      cases p with
      | nil => rfl
      | cons c cs => simp [infixL, startsWithL] at h
    subst hp
    cases m with
    | nil => simpa using h
    | cons c cs => simp [infixL, startsWithL]
  | cons c cs ih =>
    simp only [infixL, Bool.or_eq_true] at h ⊢
    rcases h with h | h
    · exact Or.inl (startsWithL_append _ h)
    · exact Or.inr (ih h)

/-- A substring of `a` is a substring of `a ++ s`. -/
theorem strContains_append_left {a : String} (s : String) {pat : String}
    (h : strContains a pat = true) : strContains (a ++ s) pat = true := by
  unfold strContains at h ⊢
  rw [show (a ++ s).toList = a.toList ++ s.toList from rfl]
  exact infixL_append _ h

/-! ## Claim C4: loading a pre-supplied resource list -/

/-- C4 counterexample: in the `type|name|id` format the line `keypairs||kp1`
has an empty NAME, not an empty id — loading it yields the entry
`{keypairs: {"kp1": ""}}`, not `{keypairs: {"0": "kp1"}}`; and `volumes||vol1`
is loaded as `{volumes: {"vol1": ""}}` with no error reported and nothing
excluded, contrary to the claim. -/
theorem C4_counterexample :
    get_resources_from_cleanup_log ["keypairs||kp1"] =
      some ([("keypairs", [("kp1", "")])], [])
    ∧ get_resources_from_cleanup_log ["keypairs||kp1"] ≠
      some ([("keypairs", [("0", "kp1")])], [])
    ∧ get_resources_from_cleanup_log ["volumes||vol1"] =
      some ([("volumes", [("vol1", "")])], []) := by
  refine ⟨by decide, by decide, by decide⟩

/-- C4 (amended): loading a list containing `keypairs|kp1|` (empty THIRD
field, the id) yields `{keypairs: {"0": "kp1"}}`, while `volumes|vol1|` with an
empty id is reported as an error but is nevertheless inserted into the
inventory under the empty-string id; the load is not aborted. -/
theorem C4_amended_load :
    get_resources_from_cleanup_log ["keypairs|kp1|", "volumes|vol1|"] =
      some ([("keypairs", [("0", "kp1")]), ("volumes", [("", "vol1")])],
        ["Error: resource type volumes has no ID - ignored!!!"]) := by
  decide

/-! ## Claim C5: filter matching on name or description -/

/-- C5 counterexample: a discovered resource whose name attribute is the empty
string but whose description `test-env` matches the pattern `^test-.*$` is NOT
retained, refuting the claimed if-and-only-if. -/
theorem C5_counterexample :
    patTestPrefix "test-env" = true ∧
    build_resource_dict patTestPrefix
      [{ rid := "r1", name := some "", descr := some "test-env", fipAddr := none }] = [] := by
  decide

/-- C5 (amended): a discovered resource with a non-empty computed display name
is retained iff the pattern matches its display name or its non-empty
description; the concrete examples: `test-abc` with no description matches
`^test-.*$`, and `prod-abc` with description `test-env` also matches. -/
theorem C5_filter_match :
    (∀ (pat : String → Bool) (r : PyRes), resDisplayName r ≠ "" →
      ((∃ nm, (r.rid, nm) ∈ build_resource_dict pat [r]) ↔
        (pat (resDisplayName r) = true ∨
          (r.descr.getD "" ≠ "" ∧ pat (r.descr.getD "") = true))))
    ∧ build_resource_dict patTestPrefix
        [{ rid := "i1", name := some "test-abc", descr := none, fipAddr := none }] =
        [("i1", "test-abc")]
    ∧ build_resource_dict patTestPrefix
        [{ rid := "i2", name := some "prod-abc", descr := some "test-env", fipAddr := none }] =
        [("i2", "prod-abc")] := by
  refine ⟨?_, by decide, by decide⟩
  intro pat r hne
  rw [build_resource_dict_singleton]
  by_cases hk : keptRes pat r = true
  · rw [if_pos hk]
    constructor
    · intro _
      exact ((keptRes_iff pat r).mp hk).2
    · intro _
      exact ⟨resDisplayName r, by simp⟩
  · rw [if_neg hk]
    constructor
    · rintro ⟨nm, hmem⟩
      simp at hmem
    · intro h
      exact absurd ((keptRes_iff pat r).mpr ⟨hne, h⟩) hk

/-- C5 witness: the amended theorem applied to the `test-abc` resource. -/
theorem C5_filter_match_witness :
    ∃ nm, (("i1" : String), nm) ∈ build_resource_dict patTestPrefix
      [{ rid := "i1", name := some "test-abc", descr := none, fipAddr := none }] :=
  (C5_filter_match.1 patTestPrefix
    { rid := "i1", name := some "test-abc", descr := none, fipAddr := none }
    (by decide)).mpr (Or.inl (by decide))

/-! ## Claim C10: empty display names are excluded -/

/-- C10: every entry retained by `build_resource_dict` has a non-empty display
name, and a discovered resource whose computed display name is empty is
excluded from the inventory even when its description matches the pattern. -/
theorem C10_empty_name_excluded :
    (∀ (pat : String → Bool) (l : List PyRes) (p : String × String),
        p ∈ build_resource_dict pat l → p.2 ≠ "")
    ∧ patTestPrefix "test-env" = true
    ∧ build_resource_dict patTestPrefix
        [{ rid := "rX", name := some "", descr := some "test-env", fipAddr := none }] = [] := by
  refine ⟨?_, by decide, by decide⟩
  intro pat l p hp
  rcases mem_build_resource_dict_aux _ hp with h | ⟨r, _, hk, rfl⟩
  · simp at h
  · exact ((keptRes_iff pat r).mp hk).1

/-- C10 witness: the retained entry for a matching resource indeed has a
non-empty display name. -/
theorem C10_empty_name_excluded_witness : (("r2", "test-x") : String × String).2 ≠ "" :=
  C10_empty_name_excluded.1 patTestPrefix
    [{ rid := "r2", name := some "test-x", descr := none, fipAddr := none }]
    ("r2", "test-x") (by decide)

/-! ## Claim C7: security-group conflict retries -/

/-- C7: a conflict on a security-group delete that persists through all three
attempts of the retry budget yields a Failed outcome whose message contains
`after retries`; a conflict that resolves before the budget is exhausted (the
delete succeeds at some attempt `k < 3`) yields a Deleted outcome. -/
theorem C7_secgroup_conflict_retry (b : Backend) (sgid sgname : String) (e : Exc)
    (hc : secgroupConflictCheck e = true) (hn : is_not_found_error e = false) :
    ((∀ i, i < 3 → b.deleteSecgroup sgid i = some e) →
      secgroupLoop b false sgid sgname 0 3 =
        [.callDelete "Network" "SECURITY GROUP" sgid,
         .callDelete "Network" "SECURITY GROUP" sgid,
         .callDelete "Network" "SECURITY GROUP" sgid,
         .rptError "SECURITY GROUP" sgname ("Still in use after retries: " ++ e.message)]
      ∧ strContains ("Still in use after retries: " ++ e.message) "after retries" = true)
    ∧ (∀ k, k < 3 → (∀ i, i < k → b.deleteSecgroup sgid i = some e) →
        b.deleteSecgroup sgid k = none →
        reportsOf (secgroupLoop b false sgid sgname 0 3) =
          [.rptDeleted "SECURITY GROUP" sgname false]) := by
  constructor
  · intro h
    have h0 := h 0 (by omega)
    have h1 := h 1 (by omega)
    have h2 := h 2 (by omega)
    refine ⟨by simp [secgroupLoop, h0, h1, h2, hc, hn], ?_⟩
    exact strContains_append_left _ (by decide)
  · intro k hk hconf hok
    interval_cases k
    · simp [secgroupLoop, hok, reportsOf, isReport]
    · have h0 := hconf 0 (by omega)
      simp [secgroupLoop, h0, hok, hc, hn, reportsOf, isReport]
    · have h0 := hconf 0 (by omega)
      have h1 := hconf 1 (by omega)
      simp [secgroupLoop, h0, h1, hok, hc, hn, reportsOf, isReport]

/-- A backend whose security-group deletes always raise a conflict. -/
def bSgConfAlways : Backend := { B0 with deleteSecgroup := fun _ _ => some conflictExc }

/-- A backend whose security-group deletes raise a conflict twice and then
succeed. -/
def bSgConfTwice : Backend :=
  { B0 with deleteSecgroup := fun _ i => if i < 2 then some conflictExc else none }

/-- C7 witness: the theorem evaluated on both retry scenarios. -/
theorem C7_secgroup_conflict_retry_witness :
    secgroupLoop bSgConfAlways false "sg1" "grp" 0 3 =
      [.callDelete "Network" "SECURITY GROUP" "sg1",
       .callDelete "Network" "SECURITY GROUP" "sg1",
       .callDelete "Network" "SECURITY GROUP" "sg1",
       .rptError "SECURITY GROUP" "grp" "Still in use after retries: 409 Conflict"]
    ∧ reportsOf (secgroupLoop bSgConfTwice false "sg2" "grp2" 0 3) =
      [.rptDeleted "SECURITY GROUP" "grp2" false] := by
  constructor
  · exact ((C7_secgroup_conflict_retry bSgConfAlways "sg1" "grp" conflictExc
      (by decide) (by decide)).1 (fun i _ => rfl)).1
  · exact (C7_secgroup_conflict_retry bSgConfTwice "sg2" "grp2" conflictExc
      (by decide) (by decide)).2 2 (by omega)
      (fun i hi => by
        show (if i < 2 then some conflictExc else none) = some conflictExc
        rw [if_pos hi])
      (by decide)

/-! ## Claim C8: deletion verification polling -/

theorem verifyLoop_false {get : Nat → Option Exc} :
    ∀ (n i0 : Nat), (∀ j, j < n → get (i0 + j) = none) → verifyLoop true get i0 n = false
  | 0, _, _ => rfl
  | n + 1, i0, h => by
    have h0 : get i0 = none := by simpa using h 0 (by omega)
    have hrec : verifyLoop true get (i0 + 1) n = false :=
      verifyLoop_false n (i0 + 1) (fun j hj => by
        have := h (j + 1) (by omega)
        simpa [Nat.add_assoc, Nat.add_comm 1 j] using this)
    simp [verifyLoop, h0, hrec]

theorem verifyLoop_true {get : Nat → Option Exc} {e : Exc} :
    ∀ (n i0 k : Nat), k < n → (∀ j, j < k → get (i0 + j) = none) →
      get (i0 + k) = some e → verifyLoop true get i0 n = true
  | 0, _, _, hk, _, _ => absurd hk (by omega)
  | n + 1, i0, 0, _, _, hsome => by
    simp at hsome
    simp [verifyLoop, hsome]
  | n + 1, i0, k + 1, _, hnone, hsome => by
    have h0 : get i0 = none := by simpa using hnone 0 (by omega)
    have hrec : verifyLoop true get (i0 + 1) n = true :=
      verifyLoop_true n (i0 + 1) k (by omega)
        (fun j hj => by
          have := hnone (j + 1) (by omega)
          simpa [Nat.add_assoc, Nat.add_comm 1 j] using this)
        (by
          have hx : i0 + 1 + k = i0 + (k + 1) := by omega
          rw [hx]; exact hsome)
    simp [verifyLoop, h0, hrec]

/-- C8: for a supported resource type, `verify_resource_deleted` polls the
kind's get: if no attempt raises, the bounded attempt count elapses and it
returns false without raising; if the first raising attempt raises a NotFound
it returns true; and if the first raising attempt raises any other error it
also returns true (treated as evidence the resource is gone). -/
theorem C8_verify_deleted (rtype : String) (get : Nat → Option Exc) (n : Nat)
    (hkind : monitorKinds.contains (upperStr rtype) = true) :
    ((∀ i, i < n → get i = none) → verify_resource_deleted false rtype get n = false)
    ∧ (∀ k e, k < n → (∀ i, i < k → get i = none) → get k = some e →
        e.isResourceNotFound = true → verify_resource_deleted false rtype get n = true)
    ∧ (∀ k e, k < n → (∀ i, i < k → get i = none) → get k = some e →
        e.isResourceNotFound = false → verify_resource_deleted false rtype get n = true) := by
  simp only [verify_resource_deleted, hkind, if_false, Bool.false_eq_true]
  refine ⟨?_, ?_, ?_⟩
  · intro h
    exact verifyLoop_false n 0 (fun j hj => by simpa using h j hj)
  · intro k e hk hnone hsome _
    exact verifyLoop_true n 0 k hk (fun j hj => by simpa using hnone j hj)
      (by simpa using hsome)
  · intro k e hk hnone hsome _
    exact verifyLoop_true n 0 k hk (fun j hj => by simpa using hnone j hj)
      (by simpa using hsome)

/-- Oracle: the resource never disappears. -/
def wGetNone : Nat → Option Exc := fun _ => none

/-- Oracle: the second poll raises a NotFound. -/
def wGetNf : Nat → Option Exc := fun i => if i == 1 then some nfPlainExc else none

/-- Oracle: the first poll raises a non-NotFound error. -/
def wGetOther : Nat → Option Exc := fun i => if i == 0 then some conflictExc else none

/-- C8 witness: the three polling outcomes at concrete oracles. -/
theorem C8_verify_deleted_witness :
    verify_resource_deleted false "VOLUME" wGetNone 5 = false
    ∧ verify_resource_deleted false "VOLUME" wGetNf 5 = true
    ∧ verify_resource_deleted false "VOLUME" wGetOther 5 = true := by
  refine ⟨?_, ?_, ?_⟩
  · exact (C8_verify_deleted "VOLUME" wGetNone 5 (by decide)).1 (fun i _ => rfl)
  · exact (C8_verify_deleted "VOLUME" wGetNf 5 (by decide)).2.1 1 nfPlainExc (by omega)
      (fun i hi => by
        have hz : i = 0 := by omega
        subst hz; decide)
      (by decide) (by decide)
  · exact (C8_verify_deleted "VOLUME" wGetOther 5 (by decide)).2.2 0 conflictExc (by omega)
      (fun i hi => absurd hi (by omega)) (by decide) (by decide)

/-! ## Claim C2: NotFound on delete yields AlreadyGone -/

/-- The network-phase port cleanup never reports an outcome (its failures are
only printed). -/
theorem networkPortsCleanup_no_reports (b : Backend) (nid : String) (a : Nat) :
    (networkPortsCleanup b nid a).filter isReport = [] := by
  unfold networkPortsCleanup
  cases b.networkPortsList nid a with
  | error e => simp [isReport]
  | ok ports =>
    simp only [List.filter_append, List.filter_cons, isReport, List.filter_nil,
      Bool.false_eq_true, if_false, List.nil_append]
    induction ports with
    | nil => simp
    | cons p ps ih =>
      by_cases hsys : systemOwnersNet.contains p.deviceOwner = true <;>
        simp [hsys, isReport, ih]

/-- A backend whose floating-IP delete in `_delete_floating_ips` raises a
genuine NotFound. -/
def bNfFip : Backend := { B0 with deleteFipCompute := fun _ => some nfPlainExc }

/-- A backend whose Heat stack delete raises a genuine NotFound. -/
def bNfHeat : Backend := { B0 with deleteStack := fun _ => some nfPlainExc }

/-- A backend whose router-bound floating-IP delete raises a genuine NotFound. -/
def bNfRouterFip : Backend := { B0 with deleteIpRouter := fun _ => some nfPlainExc }

/-- A floating IP used in the C2 counterexample. -/
def fipX : Fip :=
  { fid := "f1", address := "1.2.3.4", descr := "", routerId := none, portId := none }

/-- C2 counterexample: a genuine SDK NotFound (message without the literal
`NotFound`) raised by a delete attempt is (a) reported as Failed for a floating
IP deleted through the Compute cleaner's attached-floating-IP path, (b)
reported as Failed for a Heat stack, and (c) produces no outcome at all for a
floating IP deleted during router teardown — refuting `always AlreadyGone,
never Failed, for every resource kind`. -/
theorem C2_counterexample :
    genuineNotFound nfPlainExc
    ∧ reportsOf (fipDeleteStepCompute bNfFip [fipX] "1.2.3.4") =
        [.rptError "FLOATING IP" "1.2.3.4" "resource gone"]
    ∧ reportsOf (heatStep bNfHeat false "s1" "stk") =
        [.rptError "HEAT STACK" "stk" "resource gone"]
    ∧ reportsOf (routerFipDelete bNfRouterFip fipX) = [] := by
  exact ⟨⟨by decide, by decide⟩, by decide, by decide, by decide⟩

/-- C2 (amended): a genuine SDK NotFound raised by the delete attempt yields
the AlreadyGone outcome for volumes, snapshots, instances, flavors, keypairs,
images, network-phase floating IPs, swept ports, routers, networks, security
groups and load balancers; for Heat stacks and DNS zones it does so exactly
when the error message contains `NotFound`.  (The exceptions shown by the
counterexample — the Compute attached-floating-IP path and the router-bound
floating-IP path — are excluded.) -/
theorem C2_notfound_already_gone (e : Exc) (hg : genuineNotFound e) (b : Backend)
    (pat : String → Bool) (rid rname : String) :
    (b.deleteVolume rid = some e →
      reportsOf (volumeStep b false rid rname) = [.rptNotFound "VOLUME" rname])
    ∧ (b.deleteSnapshot rid = some e →
      reportsOf (snapshotStep b false rid rname) = [.rptNotFound "VOLUME SNAPSHOT" rname])
    ∧ (∀ s : Server, b.getServer rid = .ok s → s.fips = [] →
      b.deleteServer rid = some e →
      reportsOf (instanceStep b false rid rname).1 = [.rptNotFound "INSTANCE" rname])
    ∧ (b.deleteFlavor rid = some e →
      reportsOf (flavorStep b false rid rname) = [.rptNotFound "FLAVOR" rname])
    ∧ (b.deleteKeypair rname = some e →
      reportsOf (keypairStep b false rid rname) = [.rptNotFound "KEYPAIR" rname])
    ∧ (b.deleteImage rid = some e →
      reportsOf (imageStep b false rid rname) = [.rptNotFound "IMAGE" rname])
    ∧ (∀ f : Fip, b.deleteIpNet f.fid = some e →
      reportsOf (delete_floating_ip b false f) = [.rptNotFound "FLOATING IP" f.address])
    ∧ (∀ p : Port, pat p.pname = true →
      systemOwnersSweep.contains p.deviceOwner = false →
      b.deletePortSweep p.pid = some e →
      reportsOf (sweepPortStep pat b false p) = [.rptNotFound "PORT" p.pname])
    ∧ routerExcReport rname e = [.rptNotFound "ROUTER" rname]
    ∧ (b.deleteNetwork rid 0 = some e →
      reportsOf (networkLoop b false rid rname 0 3) = [.rptNotFound "NETWORK" rname])
    ∧ (b.deleteSecgroup rid 0 = some e →
      reportsOf (secgroupLoop b false rid rname 0 3) =
        [.rptNotFound "SECURITY GROUP" rname])
    ∧ (b.getLB rid 0 = .ok { status := "ACTIVE" } → b.deleteLB rid 0 = some e →
      reportsOf (lbLoop b false rid rname 0 3) = [.rptNotFound "LOAD BALANCER" rname])
    ∧ (strContains e.message "NotFound" = true → b.getStack rid = none →
      b.deleteStack rid = some e →
      reportsOf (heatStep b false rid rname) = [.rptNotFound "HEAT STACK" rname])
    ∧ (strContains e.message "NotFound" = true → b.deleteZone rid = some e →
      reportsOf (dnsStep b false rid rname) = [.rptNotFound "DNS ZONE" rname]) := by
  obtain ⟨hinst, htype⟩ := hg
  have hnf : is_not_found_error e = true := by
    unfold is_not_found_error
    rw [htype, Bool.true_or]
  refine ⟨?_, ?_, ?_, ?_, ?_, ?_, ?_, ?_, ?_, ?_, ?_, ?_, ?_, ?_⟩
  · intro h
    simp [volumeStep, h, instanceCatchReport, hinst, reportsOf, isReport]
  · intro h
    simp [snapshotStep, h, instanceCatchReport, hinst, reportsOf, isReport]
  · intro s hs hfips h
    simp [instanceStep, hs, hfips, h, instExcHandle, hnf, reportsOf, isReport,
      List.isEmpty_iff]
  · intro h
    simp [flavorStep, h, hnf, reportsOf, isReport]
  · intro h
    simp [keypairStep, h, hnf, reportsOf, isReport]
  · intro h
    simp [imageStep, h, hnf, reportsOf, isReport]
  · intro f h
    simp [delete_floating_ip, h, hnf, reportsOf, isReport]
  · intro p hpat hsys h
    have hsys' : p.deviceOwner ∉ systemOwnersSweep := by simpa using hsys
    simp [sweepPortStep, hpat, hsys', h, hnf, reportsOf, isReport]
  · simp [routerExcReport, hnf]
  · intro h
    simp [networkLoop, h, hnf, reportsOf, List.filter_append,
      networkPortsCleanup_no_reports, isReport]
  · intro h
    simp [secgroupLoop, h, hnf, reportsOf, isReport]
  · intro hget h
    simp [lbLoop, hget, h, hinst, reportsOf, isReport]
  · intro hmsg hget h
    simp [heatStep, hget, h, advNotFoundReport, hmsg, reportsOf, isReport]
  · intro hmsg h
    simp [dnsStep, h, advNotFoundReport, hmsg, reportsOf, isReport]

/-- A backend whose volume delete raises a genuine NotFound. -/
def bNfVol : Backend := { B0 with deleteVolume := fun _ => some nfPlainExc }

/-- C2 witness: the amended theorem evaluated on a volume whose delete raises
a genuine NotFound. -/
theorem C2_notfound_already_gone_witness :
    reportsOf (volumeStep bNfVol false "v1" "vol") = [.rptNotFound "VOLUME" "vol"] :=
  (C2_notfound_already_gone nfPlainExc ⟨by decide, by decide⟩ bNfVol patTestPrefix
    "v1" "vol").1 rfl

/-! ## Trace-ordering toolkit -/

/-- Every `p`-event of the trace occurs strictly before every `q`-event. -/
def beforeAll (p q : Ev → Bool) (tr : List Ev) : Prop :=
  ∀ i j, (hi : i < tr.length) → (hj : j < tr.length) →
    p (tr.get ⟨i, hi⟩) = true → q (tr.get ⟨j, hj⟩) = true → i < j

/-- If the `p`-events can only sit in the first part and the `q`-events only in
the second, every `p`-event precedes every `q`-event. -/
theorem beforeAll_append {p q : Ev → Bool} {a b : List Ev}
    (hpb : ∀ e ∈ b, p e = false) (hqa : ∀ e ∈ a, q e = false) :
    beforeAll p q (a ++ b) := by
  intro i j hi hj hp hq
  rw [List.get_eq_getElem] at hp hq
  have hi' := hi
  have hj' := hj
  rw [List.length_append] at hi' hj'
  have hia : i < a.length := by
    by_contra hge
    push_neg at hge
    rw [List.getElem_append_right hge] at hp
    have hmem : b[i - a.length] ∈ b := List.getElem_mem (by omega)
    rw [hpb _ hmem] at hp
    exact absurd hp (by simp)
  have hja : a.length ≤ j := by
    by_contra hlt
    push_neg at hlt
    rw [List.getElem_append_left hlt] at hq
    have hmem : a[j] ∈ a := List.getElem_mem (by omega)
    rw [hqa _ hmem] at hq
    exact absurd hq (by simp)
  omega

theorem all_flatten {p : Ev → Bool} {ls : List (List Ev)}
    (h : ∀ l ∈ ls, l.all p = true) : ls.flatten.all p = true := by
  induction ls with
  | nil => rfl
  | cons x xs ih =>
    rw [List.flatten_cons, List.all_append]
    simp [h x (by simp), ih (fun l hl => h l (by simp [hl]))]

theorem eachRes_all {p : Ev → Bool} {step : String → String → List Ev}
    (h : ∀ i n, (step i n).all p = true) :
    ∀ l, (eachRes step l).all p = true
  | [] => rfl
  | (i, n) :: rest => by
    rw [eachRes, List.all_append]
    simp [h i n, eachRes_all h rest]

theorem all_flatten_map {p : Ev → Bool} {α : Type} {f : α → List Ev} {xs : List α}
    (h : ∀ a, (f a).all p = true) : ((xs.map f).flatten).all p = true := by
  apply all_flatten
  intro l hl
  obtain ⟨a, _, rfl⟩ := List.mem_map.mp hl
  exact h a

theorem all_map_ev {p : Ev → Bool} {α : Type} {f : α → Ev} {xs : List α}
    (h : ∀ a, p (f a) = true) : (xs.map f).all p = true := by
  induction xs with
  | nil => rfl
  | cons x xs ih => simp only [List.map_cons, List.all_cons, ih, h x, Bool.and_self]

theorem forall_mem_of_all {p : Ev → Bool} {l : List Ev} (h : l.all p = true) :
    ∀ e ∈ l, p e = true := by
  simpa [List.all_eq_true] using h

/-! ## Event-shape predicates for the five cleaners -/

/-- Every delete call in the event targets one of the given resource types. -/
def deleteRtypeIn (rts : List String) : Ev → Bool
  | .callDelete _ rt _ => rts.contains rt
  | _ => true

/-- The event's category tag is in the given list. -/
def catIn (cats : List String) (e : Ev) : Bool := cats.contains (catOf e)

/-- Shape of AdvancedServicesCleaner events. -/
def advOk : Ev → Bool := deleteRtypeIn ["HEAT STACK", "DNS ZONE"]

/-- Shape of ComputeCleaner events. -/
def compOk : Ev → Bool :=
  deleteRtypeIn ["INSTANCE", "FLAVOR", "KEYPAIR", "IMAGE", "FLOATING IP"]

/-- Shape of StorageCleaner events. -/
def storOk : Ev → Bool := deleteRtypeIn ["VOLUME", "VOLUME SNAPSHOT"]

/-- Shape of LoadBalancerCleaner events. -/
def lbOk : Ev → Bool := deleteRtypeIn ["LOAD BALANCER"]

/-- The event is non-mutating or a security-group delete. -/
def secOnly (e : Ev) : Bool := !isMutating e || isSecgroupDelete e

/-- Shape of the NetworkCleaner events before the security-group phase. -/
def netPreOk (e : Ev) : Bool :=
  catIn ["Network", ""] e && deleteRtypeIn ["FLOATING IP", "PORT", "ROUTER", "NETWORK"] e

/-- Shape of the NetworkCleaner security-group phase events. -/
def secPhaseOk (e : Ev) : Bool := catIn ["Network", ""] e && secOnly e

theorem noSecDel_of_deleteRtypeIn {rts : List String}
    (hsg : ("SECURITY GROUP" : String) ∉ rts) :
    ∀ {e : Ev}, deleteRtypeIn rts e = true → isSecgroupDelete e = false := by
  intro e h
  cases e with
  | callDelete c rt i =>
    have hrt : rt ∈ rts := by simpa [deleteRtypeIn] using h
    have : rt ≠ "SECURITY GROUP" := fun hh => hsg (hh ▸ hrt)
    simpa [isSecgroupDelete] using this
  | callUpdate c rt i => rfl
  | callRemoveInterface c r s => rfl
  | callGet c rt i => rfl
  | callList c rt => rfl
  | callWait c i => rfl
  | rptDeleted rt n d => rfl
  | rptNotFound rt n => rfl
  | rptError rt n r => rfl

theorem notComputeMutating_of_catIn {e : Ev} (h : catIn ["Network", ""] e = true) :
    isComputeMutating e = false := by
  have hmem : catOf e ∈ ["Network", ""] := by simpa [catIn] using h
  have hne : catOf e ≠ "Compute" := by
    intro hc
    rw [hc] at hmem
    simp at hmem
  simp [isComputeMutating, hne]

/-! ### Shape traversals: every event of each cleaner fits its shape -/

theorem heatStep_adv (b : Backend) (d : Bool) (i n : String) :
    (heatStep b d i n).all advOk = true := by
  unfold heatStep advNotFoundReport
  repeat' split
  all_goals rfl

theorem dnsStep_adv (b : Backend) (d : Bool) (i n : String) :
    (dnsStep b d i n).all advOk = true := by
  unfold dnsStep advNotFoundReport
  repeat' split
  all_goals rfl

theorem advClean_adv (b : Backend) (d : Bool) (inv : Inventory) :
    (advClean b d inv).all advOk = true := by
  unfold advClean
  repeat' split
  all_goals simp only [List.all_cons, List.all_append, List.all_nil, Bool.and_eq_true,
    Bool.and_true, and_true]
  all_goals repeat' apply And.intro
  all_goals first
    | rfl
    | trivial
    | exact eachRes_all (heatStep_adv b d) _
    | exact eachRes_all (dnsStep_adv b d) _

theorem fipDeleteStepCompute_comp (b : Backend) (fl : List Fip) (a : String) :
    (fipDeleteStepCompute b fl a).all compOk = true := by
  unfold fipDeleteStepCompute
  repeat' split
  all_goals rfl

theorem instanceStep_comp (b : Backend) (d : Bool) (i n : String) :
    (instanceStep b d i n).1.all compOk = true := by
  unfold instanceStep instExcHandle
  repeat' split
  all_goals simp only [List.all_cons, List.all_append, List.all_nil, Bool.and_eq_true,
    Bool.and_true, and_true]
  all_goals repeat' apply And.intro
  all_goals first
    | rfl
    | exact all_map_ev (fun a => rfl)
    | exact all_flatten_map (fun a => fipDeleteStepCompute_comp b _ a)

theorem instancesPhase_comp (b : Backend) (d : Bool) :
    ∀ l, (instancesPhase b d l).1.all compOk = true
  | [] => rfl
  | (i, n) :: rest => by
    unfold instancesPhase
    rw [List.all_append]
    simp [instanceStep_comp, instancesPhase_comp b d rest]

theorem waitRound_comp (b : Backend) (round : Nat) :
    ∀ l, (waitRound b round l).1.all compOk = true
  | [] => rfl
  | (i, n) :: rest => by
    unfold waitRound
    repeat' split
    all_goals simp only [List.all_cons, List.all_append, List.all_nil, Bool.and_eq_true,
      Bool.and_true, and_true]
    all_goals repeat' apply And.intro
    all_goals first
      | rfl
      | exact waitRound_comp b round rest

theorem waitLoop_comp (b : Backend) :
    ∀ fuel round l, (waitLoop b round fuel l).all compOk = true := by
  intro fuel
  induction fuel with
  | zero => intro round l; rfl
  | succ fuel ih =>
    intro round l
    cases l with
    | nil => rfl
    | cons x rest =>
      obtain ⟨i, n⟩ := x
      unfold waitLoop
      rw [List.all_append]
      simp [waitRound_comp, ih]

theorem flavorStep_comp (b : Backend) (d : Bool) (i n : String) :
    (flavorStep b d i n).all compOk = true := by
  unfold flavorStep
  repeat' split
  all_goals rfl

theorem keypairStep_comp (b : Backend) (d : Bool) (i n : String) :
    (keypairStep b d i n).all compOk = true := by
  unfold keypairStep
  repeat' split
  all_goals rfl

theorem imageStep_comp (b : Backend) (d : Bool) (i n : String) :
    (imageStep b d i n).all compOk = true := by
  unfold imageStep
  repeat' split
  all_goals rfl

theorem computeClean_comp (b : Backend) (d : Bool) (inv : Inventory) :
    (computeClean b d inv).all compOk = true := by
  unfold computeClean
  simp only [List.all_cons, List.all_append, List.all_nil, Bool.and_eq_true,
    Bool.and_true, and_true]
  repeat' split
  all_goals repeat' apply And.intro
  all_goals first
    | rfl
    | trivial
    | exact instancesPhase_comp b d _
    | exact waitLoop_comp b 30 0 _
    | exact eachRes_all (flavorStep_comp b d) _
    | exact eachRes_all (keypairStep_comp b d) _
    | exact eachRes_all (imageStep_comp b d) _

theorem snapshotStep_stor (b : Backend) (d : Bool) (i n : String) :
    (snapshotStep b d i n).all storOk = true := by
  unfold snapshotStep instanceCatchReport
  repeat' split
  all_goals rfl

theorem volumeStep_stor (b : Backend) (d : Bool) (i n : String) :
    (volumeStep b d i n).all storOk = true := by
  unfold volumeStep instanceCatchReport
  repeat' split
  all_goals rfl

theorem storageClean_stor (b : Backend) (d : Bool) (inv : Inventory) :
    (storageClean b d inv).all storOk = true := by
  unfold storageClean
  rw [List.all_append]
  simp [eachRes_all (volumeStep_stor b d), eachRes_all (snapshotStep_stor b d)]

theorem verifyTrace_lb (get : Nat → Option Exc) (rid : String) :
    ∀ n i, (verifyTrace get rid i n).all lbOk = true := by
  intro n
  induction n with
  | zero => intro i; rfl
  | succ n ih =>
    intro i
    unfold verifyTrace
    repeat' split
    all_goals simp only [List.all_cons, List.all_append, List.all_nil, Bool.and_eq_true,
      Bool.and_true, and_true]
    all_goals repeat' apply And.intro
    all_goals first
      | rfl
      | exact ih _

theorem lbLoop_lb (b : Backend) (d : Bool) (i n : String) :
    ∀ rc a, (lbLoop b d i n a rc).all lbOk = true := by
  intro rc
  induction rc with
  | zero => intro a; rfl
  | succ rc ih =>
    intro a
    unfold lbLoop
    repeat' split
    all_goals simp only [List.all_cons, List.all_append, List.all_nil, Bool.and_eq_true,
      Bool.and_true, and_true]
    all_goals repeat' apply And.intro
    all_goals first
      | rfl
      | exact ih _
      | exact verifyTrace_lb (b.verifyGetLB i) i 10 0

theorem lbClean_lb (b : Backend) (d : Bool) (inv : Inventory) :
    (lbClean b d inv).all lbOk = true := by
  unfold lbClean
  exact eachRes_all (fun i n => lbLoop_lb b d i n 3 0) inv.loadbalancers

theorem delete_floating_ip_net (b : Backend) (d : Bool) (f : Fip) :
    (delete_floating_ip b d f).all netPreOk = true := by
  unfold delete_floating_ip
  repeat' split
  all_goals rfl

theorem fipInvStep_net (b : Backend) (d : Bool) (i n : String) :
    (fipInvStep b d i n).all netPreOk = true := by
  unfold fipInvStep
  repeat' split
  all_goals first
    | rfl
    | simp [delete_floating_ip_net, netPreOk, catIn, catOf, deleteRtypeIn]

theorem sweepFipStep_net (pat : String → Bool) (b : Backend) (d : Bool)
    (known : List String) (f : Fip) :
    (sweepFipStep pat b d known f).all netPreOk = true := by
  unfold sweepFipStep
  repeat' split
  all_goals first | rfl | exact delete_floating_ip_net b d f

theorem sweepFipsPhase_net (pat : String → Bool) (b : Backend) (d : Bool)
    (known : List String) :
    (sweepFipsPhase pat b d known).all netPreOk = true := by
  unfold sweepFipsPhase
  repeat' split
  all_goals simp only [List.all_cons, List.all_append, List.all_nil, Bool.and_eq_true,
    Bool.and_true, and_true]
  all_goals repeat' apply And.intro
  all_goals first
    | rfl
    | exact all_flatten_map (fun f => sweepFipStep_net pat b d known f)

theorem sweepPortStep_net (pat : String → Bool) (b : Backend) (d : Bool) (p : Port) :
    (sweepPortStep pat b d p).all netPreOk = true := by
  unfold sweepPortStep
  repeat' split
  all_goals rfl

theorem sweepPortsPhase_net (pat : String → Bool) (b : Backend) (d : Bool) :
    (sweepPortsPhase pat b d).all netPreOk = true := by
  unfold sweepPortsPhase
  repeat' split
  all_goals simp only [List.all_cons, List.all_append, List.all_nil, Bool.and_eq_true,
    Bool.and_true, and_true]
  all_goals repeat' apply And.intro
  all_goals first
    | rfl
    | exact all_flatten_map (fun p => sweepPortStep_net pat b d p)

theorem routerExcReport_net (n : String) (e : Exc) :
    (routerExcReport n e).all netPreOk = true := by
  unfold routerExcReport
  repeat' split
  all_goals rfl

theorem routerStepDry_net (b : Backend) (i n : String) :
    (routerStepDry b i n).all netPreOk = true := by
  unfold routerStepDry
  repeat' split
  all_goals simp only [List.all_cons, List.all_append, List.all_nil, Bool.and_eq_true,
    Bool.and_true, and_true]
  all_goals repeat' apply And.intro
  all_goals first
    | rfl
    | exact routerExcReport_net n _
    | exact all_flatten_map (fun p => by
        rcases hfi : p.fixedIps with _ | ⟨⟨s, ip⟩, rest⟩ <;> rfl)

theorem routerFipSelect_net (b : Backend) (rid : String) (f : Fip) :
    (routerFipSelect b rid f).1.all netPreOk = true := by
  unfold routerFipSelect
  repeat' split
  all_goals rfl

theorem routerFipScan_net (b : Backend) (rid : String) :
    ∀ fl, (routerFipScan b rid fl).1.all netPreOk = true
  | [] => rfl
  | f :: rest => by
    unfold routerFipScan
    rw [List.all_append]
    simp [routerFipSelect_net, routerFipScan_net b rid rest]

theorem routerFipDelete_net (b : Backend) (f : Fip) :
    (routerFipDelete b f).all netPreOk = true := by
  unfold routerFipDelete
  repeat' split
  all_goals rfl

theorem gatewayPart_net (b : Backend) (rid rname : String) (r : Router) :
    (gatewayPart b rid rname r).all netPreOk = true := by
  unfold gatewayPart
  repeat' split
  all_goals rfl

theorem ifaceStep_net (rid : String) (p : Port) :
    (ifaceStep rid p).all netPreOk = true := by
  unfold ifaceStep
  repeat' split
  all_goals rfl

theorem routerStepLive_net (b : Backend) (i n : String) :
    (routerStepLive b i n).all netPreOk = true := by
  unfold routerStepLive
  repeat' split
  all_goals simp only [List.all_cons, List.all_append, List.all_nil, Bool.and_eq_true,
    Bool.and_true, and_true]
  all_goals repeat' apply And.intro
  all_goals first
    | rfl
    | exact routerExcReport_net n _
    | exact routerFipScan_net b i _
    | exact all_flatten_map (fun f => routerFipDelete_net b f)
    | exact gatewayPart_net b i n _
    | exact all_flatten_map (fun p => ifaceStep_net i p)

theorem networkPortsCleanup_net (b : Backend) (nid : String) (a : Nat) :
    (networkPortsCleanup b nid a).all netPreOk = true := by
  unfold networkPortsCleanup
  repeat' split
  all_goals simp only [List.all_cons, List.all_append, List.all_nil, Bool.and_eq_true,
    Bool.and_true, and_true]
  all_goals repeat' apply And.intro
  all_goals first
    | rfl
    | exact all_flatten_map (fun p => by split <;> rfl)

theorem networkLoop_net (b : Backend) (d : Bool) (i n : String) :
    ∀ rc a, (networkLoop b d i n a rc).all netPreOk = true := by
  intro rc
  induction rc with
  | zero => intro a; rfl
  | succ rc ih =>
    intro a
    unfold networkLoop
    repeat' split
    all_goals simp only [List.all_cons, List.all_append, List.all_nil, Bool.and_eq_true,
      Bool.and_true, and_true]
    all_goals repeat' apply And.intro
    all_goals first
      | rfl
      | exact ih _
      | exact networkPortsCleanup_net b i _

theorem secgroupLoop_sec (b : Backend) (d : Bool) (i n : String) :
    ∀ rc a, (secgroupLoop b d i n a rc).all secPhaseOk = true := by
  intro rc
  induction rc with
  | zero => intro a; rfl
  | succ rc ih =>
    intro a
    unfold secgroupLoop
    repeat' split
    all_goals simp only [List.all_cons, List.all_append, List.all_nil, Bool.and_eq_true,
      Bool.and_true, and_true]
    all_goals repeat' apply And.intro
    all_goals first
      | rfl
      | exact ih _

/-! ## Claim C1: category ordering and security groups last -/

/-- The NetworkCleaner trace before the security-group phase (steps 1-5 of
`clean`). -/
def networkPreTrace (pat : String → Bool) (b : Backend) (dry : Bool) (inv : Inventory) :
    List Ev :=
  eachRes (fipInvStep b dry) inv.floatingIps ++
  sweepFipsPhase pat b dry (inv.floatingIps.map Prod.fst) ++
  sweepPortsPhase pat b dry ++
  eachRes (fun i n => if dry then routerStepDry b i n else routerStepLive b i n)
    inv.routers ++
  eachRes (fun i n => networkLoop b dry i n 0 3) inv.networks

/-- The final security-group phase of `NetworkCleaner.clean`. -/
def secgroupPhase (b : Backend) (dry : Bool) (inv : Inventory) : List Ev :=
  eachRes (fun i n => secgroupLoop b dry i n 0 3) inv.secGroups

theorem networkClean_parts (pat : String → Bool) (b : Backend) (dry : Bool)
    (inv : Inventory) :
    networkClean pat b dry inv =
      networkPreTrace pat b dry inv ++ secgroupPhase b dry inv := by
  simp [networkClean, networkPreTrace, secgroupPhase, List.append_assoc]

theorem networkPreTrace_net (pat : String → Bool) (b : Backend) (dry : Bool)
    (inv : Inventory) : (networkPreTrace pat b dry inv).all netPreOk = true := by
  unfold networkPreTrace
  simp only [List.all_append, Bool.and_eq_true]
  refine ⟨⟨⟨⟨?_, ?_⟩, ?_⟩, ?_⟩, ?_⟩
  · exact eachRes_all (fipInvStep_net b dry) _
  · exact sweepFipsPhase_net pat b dry _
  · exact sweepPortsPhase_net pat b dry
  · refine eachRes_all (fun i n => ?_) _
    split
    · exact routerStepDry_net b i n
    · exact routerStepLive_net b i n
  · exact eachRes_all (fun i n => networkLoop_net b dry i n 3 0) _

theorem secgroupPhase_sec (b : Backend) (dry : Bool) (inv : Inventory) :
    (secgroupPhase b dry inv).all secPhaseOk = true :=
  eachRes_all (fun i n => secgroupLoop_sec b dry i n 3 0) _

theorem networkClean_cat (pat : String → Bool) (b : Backend) (dry : Bool)
    (inv : Inventory) :
    ∀ e ∈ networkClean pat b dry inv, catIn ["Network", ""] e = true := by
  intro e he
  rw [networkClean_parts] at he
  rcases List.mem_append.mp he with h | h
  · have hp := forall_mem_of_all (networkPreTrace_net pat b dry inv) e h
    simp only [netPreOk, Bool.and_eq_true] at hp
    exact hp.1
  · have hp := forall_mem_of_all (secgroupPhase_sec b dry inv) e h
    simp only [secPhaseOk, Bool.and_eq_true] at hp
    exact hp.1

/-- C1: the orchestrator trace is the fixed concatenation AdvancedServices,
Compute, Storage, LoadBalancer, Network (line 1087); within the Network
cleaner every other mutating call precedes every security-group delete; and
consequently no security-group delete is ever attempted before every
Compute-category mutating call (instance, flavor, keypair, image and attached
floating-IP deletes) of the same run has been issued. -/
theorem C1_category_order (pat : String → Bool) (b : Backend) (dry : Bool)
    (inv : Inventory) :
    cleanersClean pat b dry inv =
      advClean b dry inv ++ computeClean b dry inv ++ storageClean b dry inv ++
        lbClean b dry inv ++ networkClean pat b dry inv
    ∧ beforeAll (fun e => isMutating e && !isSecgroupDelete e) isSecgroupDelete
        (networkClean pat b dry inv)
    ∧ beforeAll isComputeMutating isSecgroupDelete (cleanersClean pat b dry inv) := by
  refine ⟨rfl, ?_, ?_⟩
  · rw [networkClean_parts]
    apply beforeAll_append
    · intro e he
      have hs := forall_mem_of_all (secgroupPhase_sec b dry inv) e he
      simp only [secPhaseOk, Bool.and_eq_true] at hs
      have h2 := hs.2
      simp only [secOnly, Bool.or_eq_true, Bool.not_eq_true'] at h2
      rcases h2 with h2 | h2 <;> simp [h2]
    · intro e he
      have hp := forall_mem_of_all (networkPreTrace_net pat b dry inv) e he
      simp only [netPreOk, Bool.and_eq_true] at hp
      exact noSecDel_of_deleteRtypeIn (by decide) hp.2
  · have hsplit : cleanersClean pat b dry inv =
        (advClean b dry inv ++ computeClean b dry inv ++ storageClean b dry inv ++
          lbClean b dry inv) ++ networkClean pat b dry inv := by
      simp [cleanersClean, List.append_assoc]
    rw [hsplit]
    apply beforeAll_append
    · intro e he
      exact notComputeMutating_of_catIn (networkClean_cat pat b dry inv e he)
    · intro e he
      rcases List.mem_append.mp he with h | h
      · rcases List.mem_append.mp h with h | h
        · rcases List.mem_append.mp h with h | h
          · exact noSecDel_of_deleteRtypeIn (by decide)
              (forall_mem_of_all (advClean_adv b dry inv) e h)
          · exact noSecDel_of_deleteRtypeIn (by decide)
              (forall_mem_of_all (computeClean_comp b dry inv) e h)
        · exact noSecDel_of_deleteRtypeIn (by decide)
            (forall_mem_of_all (storageClean_stor b dry inv) e h)
      · exact noSecDel_of_deleteRtypeIn (by decide)
          (forall_mem_of_all (lbClean_lb b dry inv) e h)

/-! ## Claim C6: router teardown order and conflict handling -/

/-- The outcome part of a live router step: the line-799 success report or the
outer exception handler. -/
def routerOutcome (b : Backend) (rid rname : String) : List Ev :=
  match b.deleteRouter rid with
  | none => [.rptDeleted "ROUTER" rname false]
  | some e => routerExcReport rname e

/-- The leading part of a live router step: the get/list calls, the
router-floating-IP scan and the deletion of the selected floating IPs. -/
def routerFipZone (b : Backend) (rid : String) (fl : List Fip) : List Ev :=
  [.callGet "Network" "ROUTER" rid, .callList "Network" "FLOATING IP"] ++
  (routerFipScan b rid fl).1 ++
  ((routerFipScan b rid fl).2.map (routerFipDelete b)).flatten

/-- The interface-removal part of a live router step. -/
def routerIfaceZone (rid : String) (ports : List Port) : List Ev :=
  [.callList "Network" "PORT"] ++ (ports.map (ifaceStep rid)).flatten

/-- The router-delete part of a live router step. -/
def routerDeleteZone (b : Backend) (rid rname : String) : List Ev :=
  [.callDelete "Network" "ROUTER" rid] ++ routerOutcome b rid rname

theorem routerFipScan_quiet (b : Backend) (rid : String) :
    ∀ fl, (routerFipScan b rid fl).1.all
      (fun e => !isGatewayUpdate e && !isIfaceRemove e && !isRouterDelete e &&
        !isFipDelete e) = true
  | [] => rfl
  | f :: rest => by
    unfold routerFipScan routerFipSelect
    repeat' split
    all_goals simp only [List.all_cons, List.all_append, List.all_nil, Bool.and_eq_true,
      Bool.and_true, and_true]
    all_goals repeat' apply And.intro
    all_goals first
      | rfl
      | trivial
      | exact routerFipScan_quiet b rid rest

theorem routerFipDelete_zone (b : Backend) (f : Fip) :
    (routerFipDelete b f).all
      (fun e => !isGatewayUpdate e && !isIfaceRemove e && !isRouterDelete e) = true := by
  unfold routerFipDelete
  repeat' split
  all_goals rfl

theorem routerFipZone_quiet (b : Backend) (rid : String) (fl : List Fip) :
    ∀ e ∈ routerFipZone b rid fl,
      isGatewayUpdate e = false ∧ isIfaceRemove e = false ∧ isRouterDelete e = false := by
  intro e he
  unfold routerFipZone at he
  rcases List.mem_append.mp he with h | h
  · rcases List.mem_append.mp h with h | h
    · simp only [List.mem_cons, List.mem_singleton] at h
      rcases h with rfl | rfl | h
      · exact ⟨rfl, rfl, rfl⟩
      · exact ⟨rfl, rfl, rfl⟩
      · simp at h
    · have hh := forall_mem_of_all (routerFipScan_quiet b rid fl) e h
      simp only [Bool.and_eq_true, Bool.not_eq_true'] at hh
      exact ⟨hh.1.1.1, hh.1.1.2, hh.1.2⟩
  · obtain ⟨l, hl, hel⟩ := List.mem_flatten.mp h
    obtain ⟨f, _, rfl⟩ := List.mem_map.mp hl
    have hh := forall_mem_of_all (routerFipDelete_zone b f) e hel
    simp only [Bool.and_eq_true, Bool.not_eq_true'] at hh
    exact ⟨hh.1.1, hh.1.2, hh.2⟩

theorem gatewayPart_quiet (b : Backend) (rid rname : String) (r : Router) :
    ∀ e ∈ gatewayPart b rid rname r,
      isFipDelete e = false ∧ isIfaceRemove e = false ∧ isRouterDelete e = false := by
  intro e he
  have hh : (gatewayPart b rid rname r).all
      (fun e => !isFipDelete e && !isIfaceRemove e && !isRouterDelete e) = true := by
    unfold gatewayPart
    repeat' split
    all_goals rfl
  have h2 := forall_mem_of_all hh e he
  simp only [Bool.and_eq_true, Bool.not_eq_true'] at h2
  exact ⟨h2.1.1, h2.1.2, h2.2⟩

theorem routerIfaceZone_quiet (rid : String) (ports : List Port) :
    ∀ e ∈ routerIfaceZone rid ports,
      isFipDelete e = false ∧ isGatewayUpdate e = false ∧ isRouterDelete e = false := by
  intro e he
  unfold routerIfaceZone at he
  rcases List.mem_append.mp he with h | h
  · simp only [List.mem_singleton] at h
    subst h
    exact ⟨rfl, rfl, rfl⟩
  · obtain ⟨l, hl, hel⟩ := List.mem_flatten.mp h
    obtain ⟨p, _, rfl⟩ := List.mem_map.mp hl
    have hh : (ifaceStep rid p).all
        (fun e => !isFipDelete e && !isGatewayUpdate e && !isRouterDelete e) = true := by
      unfold ifaceStep
      repeat' split
      all_goals rfl
    have h2 := forall_mem_of_all hh e hel
    simp only [Bool.and_eq_true, Bool.not_eq_true'] at h2
    exact ⟨h2.1.1, h2.1.2, h2.2⟩

theorem routerDeleteZone_quiet (b : Backend) (rid rname : String) :
    ∀ e ∈ routerDeleteZone b rid rname,
      isFipDelete e = false ∧ isGatewayUpdate e = false ∧ isIfaceRemove e = false := by
  intro e he
  have hh : (routerDeleteZone b rid rname).all
      (fun e => !isFipDelete e && !isGatewayUpdate e && !isIfaceRemove e) = true := by
    unfold routerDeleteZone routerOutcome routerExcReport
    repeat' split
    all_goals rfl
  have h2 := forall_mem_of_all hh e he
  simp only [Bool.and_eq_true, Bool.not_eq_true'] at h2
  exact ⟨h2.1.1, h2.1.2, h2.2⟩

/-- Under a successful get and successful listings, the live router step is
exactly: floating-IP zone, then gateway clearing, then interface removal, then
the router delete with its outcome. -/
theorem routerStepLive_zones (b : Backend) (rid rname : String) (r : Router)
    (fl : List Fip) (ports : List Port)
    (h1 : b.getRouter rid = .ok r) (h2 : b.routerIpsList rid = .ok fl)
    (h3 : b.routerPortsList rid = .ok ports) :
    routerStepLive b rid rname =
      routerFipZone b rid fl ++
      (gatewayPart b rid rname r ++
        (routerIfaceZone rid ports ++ routerDeleteZone b rid rname)) := by
  unfold routerStepLive routerFipZone routerIfaceZone routerDeleteZone routerOutcome
  simp [h1, h2, h3, List.append_assoc]

/-- C6 counterexample: with a router delete that raises a Conflict, the live
router step issues EXACTLY ONE router delete call and immediately reports the
conflict as an error — there is no bounded retry of the router delete (unlike
the network and security-group loops). -/
theorem C6_counterexample :
    (routerStepLive { B0 with deleteRouter := fun _ => some conflictExc } "r1" "rtr").filter
        isRouterDelete = [.callDelete "Network" "ROUTER" "r1"]
    ∧ Ev.rptError "ROUTER" "rtr" ("Conflict (may have dependencies): 409 Conflict")
        ∈ routerStepLive { B0 with deleteRouter := fun _ => some conflictExc } "r1" "rtr" := by
  refine ⟨by decide, by decide⟩

/-- C6 (amended): for a router processed by a live run whose get and listings
succeed, the step performs, in this order: the floating-IP detach zone
(detect and delete floating IPs still bound to the router's ports), the
external-gateway clearing, the subnet-interface removals, and the router
delete; a conflict/has-dependents error on the router delete is tolerated (it
is reported as `Conflict (may have dependencies)` and the run continues) but
the router delete is attempted exactly once, with no retry. -/
theorem C6_router_teardown (b : Backend) (rid rname : String) (r : Router)
    (fl : List Fip) (ports : List Port)
    (h1 : b.getRouter rid = .ok r) (h2 : b.routerIpsList rid = .ok fl)
    (h3 : b.routerPortsList rid = .ok ports) :
    routerStepLive b rid rname =
      routerFipZone b rid fl ++ (gatewayPart b rid rname r ++
        (routerIfaceZone rid ports ++ routerDeleteZone b rid rname))
    ∧ beforeAll isFipDelete isGatewayUpdate (routerStepLive b rid rname)
    ∧ beforeAll isFipDelete isIfaceRemove (routerStepLive b rid rname)
    ∧ beforeAll isFipDelete isRouterDelete (routerStepLive b rid rname)
    ∧ beforeAll isGatewayUpdate isIfaceRemove (routerStepLive b rid rname)
    ∧ beforeAll isGatewayUpdate isRouterDelete (routerStepLive b rid rname)
    ∧ beforeAll isIfaceRemove isRouterDelete (routerStepLive b rid rname)
    ∧ (routerStepLive b rid rname).filter isRouterDelete =
        [.callDelete "Network" "ROUTER" rid]
    ∧ (∀ e, b.deleteRouter rid = some e → routerConflictCheck e = true →
        is_not_found_error e = false →
        Ev.rptError "ROUTER" rname ("Conflict (may have dependencies): " ++ e.message)
          ∈ routerStepLive b rid rname) := by
  have heq := routerStepLive_zones b rid rname r fl ports h1 h2 h3
  have hA := routerFipZone_quiet b rid fl
  have hG := gatewayPart_quiet b rid rname r
  have hI := routerIfaceZone_quiet rid ports
  have hD := routerDeleteZone_quiet b rid rname
  have hrest_nofip : ∀ e ∈ gatewayPart b rid rname r ++
      (routerIfaceZone rid ports ++ routerDeleteZone b rid rname),
      isFipDelete e = false := by
    intro e he
    rcases List.mem_append.mp he with h | h
    · exact (hG e h).1
    rcases List.mem_append.mp h with h | h
    · exact (hI e h).1
    · exact (hD e h).1
  have heq2 : routerStepLive b rid rname =
      (routerFipZone b rid fl ++ gatewayPart b rid rname r) ++
        (routerIfaceZone rid ports ++ routerDeleteZone b rid rname) := by
    rw [heq]
    simp [List.append_assoc]
  have heq3 : routerStepLive b rid rname =
      ((routerFipZone b rid fl ++ gatewayPart b rid rname r) ++
        routerIfaceZone rid ports) ++ routerDeleteZone b rid rname := by
    rw [heq]
    simp [List.append_assoc]
  refine ⟨heq, ?_, ?_, ?_, ?_, ?_, ?_, ?_, ?_⟩
  · rw [heq]
    exact beforeAll_append hrest_nofip (fun e he => (hA e he).1)
  · rw [heq]
    exact beforeAll_append hrest_nofip (fun e he => (hA e he).2.1)
  · rw [heq]
    exact beforeAll_append hrest_nofip (fun e he => (hA e he).2.2)
  · rw [heq2]
    apply beforeAll_append
    · intro e he
      rcases List.mem_append.mp he with h | h
      · exact (hI e h).2.1
      · exact (hD e h).2.1
    · intro e he
      rcases List.mem_append.mp he with h | h
      · exact (hA e h).2.1
      · exact (hG e h).2.1
  · rw [heq2]
    apply beforeAll_append
    · intro e he
      rcases List.mem_append.mp he with h | h
      · exact (hI e h).2.1
      · exact (hD e h).2.1
    · intro e he
      rcases List.mem_append.mp he with h | h
      · exact (hA e h).2.2
      · exact (hG e h).2.2
  · rw [heq3]
    apply beforeAll_append
    · intro e he
      exact (hD e he).2.2
    · intro e he
      rcases List.mem_append.mp he with h | h
      · rcases List.mem_append.mp h with h | h
        · exact (hA e h).2.2
        · exact (hG e h).2.2
      · exact (hI e h).2.2
  · rw [heq]
    have fA : (routerFipZone b rid fl).filter isRouterDelete = [] :=
      List.filter_eq_nil_iff.mpr (fun e he => by simp [(hA e he).2.2])
    have fG : (gatewayPart b rid rname r).filter isRouterDelete = [] :=
      List.filter_eq_nil_iff.mpr (fun e he => by simp [(hG e he).2.2])
    have fI : (routerIfaceZone rid ports).filter isRouterDelete = [] :=
      List.filter_eq_nil_iff.mpr (fun e he => by simp [(hI e he).2.2])
    have fO : (routerOutcome b rid rname).filter isRouterDelete = [] := by
      have ho : (routerOutcome b rid rname).all (fun e => !isRouterDelete e) = true := by
        unfold routerOutcome routerExcReport
        repeat' split
        all_goals rfl
      exact List.filter_eq_nil_iff.mpr (fun e he => by
        have := forall_mem_of_all ho e he
        simp_all)
    rw [List.filter_append, List.filter_append, List.filter_append, fA, fG, fI]
    unfold routerDeleteZone
    rw [List.filter_append, fO]
    rfl
  · intro e hdel hc hn
    rw [heq]
    have hmem : Ev.rptError "ROUTER" rname
        ("Conflict (may have dependencies): " ++ e.message) ∈
        routerDeleteZone b rid rname := by
      unfold routerDeleteZone routerOutcome
      rw [hdel]
      unfold routerExcReport
      simp [hn, hc]
    simp [List.mem_append, hmem]

/-- C6 witness: the theorem applied to the trivial backend (success path) and
to a backend whose router delete always raises a conflict. -/
theorem C6_router_teardown_witness :
    routerStepLive B0 "r0" "ra" =
      routerFipZone B0 "r0" [] ++ (gatewayPart B0 "r0" "ra" { hasGateway := false } ++
        (routerIfaceZone "r0" [] ++ routerDeleteZone B0 "r0" "ra"))
    ∧ Ev.rptError "ROUTER" "rb"
        ("Conflict (may have dependencies): " ++ conflictExc.message) ∈
        routerStepLive { B0 with deleteRouter := fun _ => some conflictExc } "r2" "rb" := by
  constructor
  · exact (C6_router_teardown B0 "r0" "ra" { hasGateway := false } [] [] rfl rfl rfl).1
  · exact (C6_router_teardown { B0 with deleteRouter := fun _ => some conflictExc }
      "r2" "rb" { hasGateway := false } [] [] rfl rfl rfl).2.2.2.2.2.2.2.2
      conflictExc rfl (by decide) (by decide)

/-! ## Claim C9: at most one delete call per resource id -/

/-- The ids of the floating-IP delete calls of a trace, in order. -/
def fipDeleteIds (tr : List Ev) : List String :=
  tr.filterMap (fun e =>
    match e with
    | .callDelete _ rt i => if rt == "FLOATING IP" then some i else none
    | _ => none)

theorem fipDeleteIds_append (a b : List Ev) :
    fipDeleteIds (a ++ b) = fipDeleteIds a ++ fipDeleteIds b :=
  List.filterMap_append a b _

/-- The floating IP used by the C9 counterexample: discovered in the
inventory AND still bound to a router port when the router is processed. -/
def fip9 : Fip :=
  { fid := "f1", address := "1.2.3.4", descr := "", routerId := none,
    portId := some "po1" }

/-- The C9 backend: the step-1 delete of `f1` fails with a conflict (the IP is
still attached), and during router processing the IP is listed and found on a
router port, so it is deleted again. -/
def b9 : Backend :=
  { B0 with
    getIp := fun _ => .ok fip9
    deleteIpNet := fun _ => some conflictExc
    routerIpsList := fun _ => .ok [fip9]
    getPortForFip := fun _ => .ok { pid := "po1", pname := "", deviceOwner := "",
                                    deviceId := "r1", fixedIps := [] }
    deleteIpRouter := fun _ => none }

/-- The C9 inventory: one discovered floating IP and one router. -/
def inv9 : Inventory :=
  { inv0 with floatingIps := [("f1", "1.2.3.4")], routers := [("r1", "tc-r")] }

/-- C9 counterexample: a floating IP in the inventory receives TWO delete
calls in a single run — one from the discovered-floating-IP phase (which
fails with a conflict) and a second one during router teardown, where the
still-listed IP is found bound to a router port.  This refutes `a delete call
for its id is issued at most once per run`. -/
theorem C9_counterexample :
    ("f1", "1.2.3.4") ∈ inv9.floatingIps
    ∧ fipDeleteIds (networkClean (fun _ => false) b9 false inv9) = ["f1", "f1"] := by
  refine ⟨by decide, by decide⟩

theorem fipInvStep_ids (b : Backend) (dry : Bool) (i n : String) :
    fipDeleteIds (fipInvStep b dry i n) = [] ∨
    ∃ f, b.getIp i = .ok f ∧ fipDeleteIds (fipInvStep b dry i n) = [f.fid] := by
  unfold fipInvStep delete_floating_ip fipDeleteIds
  repeat' split
  all_goals first
    | (left; rfl)
    | (right; refine ⟨_, ?_, rfl⟩; assumption)

theorem sweepFipStep_ids (pat : String → Bool) (b : Backend) (dry : Bool)
    (known : List String) (f : Fip) :
    fipDeleteIds (sweepFipStep pat b dry known f) = [] ∨
    (known.contains f.fid = false ∧
      fipDeleteIds (sweepFipStep pat b dry known f) = [f.fid]) := by
  unfold sweepFipStep delete_floating_ip fipDeleteIds
  repeat' split
  all_goals first
    | (left; rfl)
    | (right; refine ⟨by simp_all, rfl⟩)

/-- The first phase deletes only discovered ids, each at most once. -/
theorem phase1_ids_sublist (b : Backend) (dry : Bool)
    (hsan : ∀ i f, b.getIp i = .ok f → f.fid = i) :
    ∀ l : List (String × String),
      List.Sublist (fipDeleteIds (eachRes (fipInvStep b dry) l)) (l.map Prod.fst)
  | [] => by simp [eachRes, fipDeleteIds]
  | (i, n) :: rest => by
    rw [eachRes, fipDeleteIds_append]
    rcases fipInvStep_ids b dry i n with h | ⟨f, hf, h⟩
    · rw [h]
      simp only [List.map_cons, List.nil_append]
      exact (phase1_ids_sublist b dry hsan rest).cons i
    · rw [h, hsan i f hf]
      simp only [List.map_cons, List.cons_append, List.nil_append]
      exact (phase1_ids_sublist b dry hsan rest).cons₂ i

/-- The sweep deletes only listed ids, each at most once, and never an id
already in the discovered inventory. -/
theorem sweep_ids_sublist (pat : String → Bool) (b : Backend) (dry : Bool)
    (known : List String) :
    ∀ fl : List Fip, List.Sublist
        (fipDeleteIds ((fl.map (sweepFipStep pat b dry known)).flatten))
        (fl.map Fip.fid)
      ∧ ∀ x ∈ fipDeleteIds ((fl.map (sweepFipStep pat b dry known)).flatten),
        known.contains x = false
  | [] => by simp [fipDeleteIds]
  | f :: rest => by
    rw [List.map_cons, List.flatten_cons, fipDeleteIds_append]
    obtain ⟨ih1, ih2⟩ := sweep_ids_sublist pat b dry known rest
    rcases sweepFipStep_ids pat b dry known f with h | ⟨hk, h⟩
    · rw [h]
      simp only [List.map_cons, List.nil_append]
      exact ⟨ih1.cons f.fid, ih2⟩
    · rw [h]
      simp only [List.map_cons, List.cons_append, List.nil_append]
      refine ⟨ih1.cons₂ f.fid, ?_⟩
      intro x hx
      rcases List.mem_cons.mp hx with rfl | hx
      · exact hk
      · exact ih2 x hx

/-- C9 (amended): within the Network cleaner's floating-IP phases, delete
calls are issued for pairwise distinct ids: the discovered phase deletes each
inventory id at most once, and the sweep skips every id already in the
discovered inventory.  (Across phases of the run the property fails, as the
counterexample shows: a floating IP whose earlier delete failed, or which is
still listed, is deleted again during router teardown.) -/
theorem C9_fip_deletes_nodup (pat : String → Bool) (b : Backend) (dry : Bool)
    (inv : Inventory) (fl : List Fip)
    (hinv : (inv.floatingIps.map Prod.fst).Nodup)
    (hsan : ∀ i f, b.getIp i = .ok f → f.fid = i)
    (hsw : b.sweepIpsList = .ok fl)
    (hfl : (fl.map Fip.fid).Nodup) :
    (fipDeleteIds (eachRes (fipInvStep b dry) inv.floatingIps ++
      sweepFipsPhase pat b dry (inv.floatingIps.map Prod.fst))).Nodup := by
  rw [fipDeleteIds_append]
  have hsweep : fipDeleteIds (sweepFipsPhase pat b dry (inv.floatingIps.map Prod.fst)) =
      fipDeleteIds ((fl.map
        (sweepFipStep pat b dry (inv.floatingIps.map Prod.fst))).flatten) := by
    unfold sweepFipsPhase
    rw [hsw]
    rfl
  rw [hsweep]
  obtain ⟨hs1, hs2⟩ :=
    sweep_ids_sublist pat b dry (inv.floatingIps.map Prod.fst) fl
  apply List.Nodup.append
  · exact (phase1_ids_sublist b dry hsan inv.floatingIps).nodup hinv
  · exact hs1.nodup hfl
  · intro x hx1 hx2
    have hxk : x ∈ inv.floatingIps.map Prod.fst :=
      (phase1_ids_sublist b dry hsan inv.floatingIps).mem hx1
    have hnot : x ∉ inv.floatingIps.map Prod.fst := by simpa using hs2 x hx2
    exact hnot hxk

/-- C9 witness: the amended theorem on a two-IP inventory with an empty
sweep. -/
theorem C9_fip_deletes_nodup_witness :
    (fipDeleteIds (eachRes (fipInvStep B0 false)
        { inv0 with floatingIps := [("fa", "1.1.1.1"), ("fb", "2.2.2.2")] }.floatingIps ++
      sweepFipsPhase (fun _ => false) B0 false
        ({ inv0 with floatingIps := [("fa", "1.1.1.1"), ("fb", "2.2.2.2")] }.floatingIps.map
          Prod.fst))).Nodup := by
  apply C9_fip_deletes_nodup (fun _ => false) B0 false
    { inv0 with floatingIps := [("fa", "1.1.1.1"), ("fb", "2.2.2.2")] } []
  · decide
  · intro i f hf
    have h := Except.ok.inj hf
    rw [← h]
  · rfl
  · decide

/-! ## Claim C3: dry-run safety -/

/-- Non-mutating event. -/
def notMut (e : Ev) : Bool := !isMutating e

theorem heatStep_dry (b : Backend) (i n : String) :
    (heatStep b true i n).all notMut = true := rfl

theorem dnsStep_dry (b : Backend) (i n : String) :
    (dnsStep b true i n).all notMut = true := rfl

theorem advClean_dry (b : Backend) (inv : Inventory) :
    (advClean b true inv).all notMut = true := by
  unfold advClean
  repeat' split
  all_goals simp only [List.all_cons, List.all_append, List.all_nil, Bool.and_eq_true,
    Bool.and_true, and_true]
  all_goals repeat' apply And.intro
  all_goals first
    | rfl
    | trivial
    | exact eachRes_all (heatStep_dry b) _
    | exact eachRes_all (dnsStep_dry b) _

theorem flavorStep_dry (b : Backend) (i n : String) :
    (flavorStep b true i n).all notMut = true := rfl

theorem keypairStep_dry (b : Backend) (i n : String) :
    (keypairStep b true i n).all notMut = true := rfl

theorem imageStep_dry (b : Backend) (i n : String) :
    (imageStep b true i n).all notMut = true := rfl

theorem lbLoop_dry (b : Backend) (i n : String) :
    (lbLoop b true i n 0 3).all notMut = true := rfl

theorem instanceStep_dry (b : Backend) (i n : String) :
    (instanceStep b true i n).1.all notMut = true := by
  unfold instanceStep instExcHandle
  repeat' split
  all_goals simp only [List.all_cons, List.all_append, List.all_nil, Bool.and_eq_true,
    Bool.and_true, and_true]
  all_goals repeat' apply And.intro
  all_goals first
    | rfl
    | trivial
    | exact all_map_ev (fun a => rfl)
    | simp_all
    | (intro a _; rfl)

theorem instancesPhase_dry (b : Backend) :
    ∀ l, (instancesPhase b true l).1.all notMut = true
  | [] => rfl
  | (i, n) :: rest => by
    unfold instancesPhase
    rw [List.all_append]
    simp [instanceStep_dry, instancesPhase_dry b rest]

theorem computeClean_dry (b : Backend) (inv : Inventory) :
    (computeClean b true inv).all notMut = true := by
  unfold computeClean
  simp only [List.all_cons, List.all_append, List.all_nil, Bool.and_eq_true,
    Bool.and_true, and_true, Bool.not_true, Bool.false_and, Bool.false_eq_true,
    if_false, List.nil_append]
  refine ⟨⟨⟨instancesPhase_dry b _, ?_⟩, ?_⟩, ?_⟩
  · exact eachRes_all (flavorStep_dry b) _
  · exact eachRes_all (keypairStep_dry b) _
  · exact eachRes_all (imageStep_dry b) _

theorem volumeStep_dry (b : Backend) (i n : String) :
    (volumeStep b true i n).all notMut = true := by
  unfold volumeStep instanceCatchReport
  repeat' split
  all_goals first | rfl | simp_all

theorem snapshotStep_dry (b : Backend) (i n : String) :
    (snapshotStep b true i n).all notMut = true := by
  unfold snapshotStep instanceCatchReport
  repeat' split
  all_goals first | rfl | simp_all

theorem storageClean_dry (b : Backend) (inv : Inventory) :
    (storageClean b true inv).all notMut = true := by
  unfold storageClean
  rw [List.all_append]
  simp [eachRes_all (volumeStep_dry b), eachRes_all (snapshotStep_dry b)]

theorem lbClean_dry (b : Backend) (inv : Inventory) :
    (lbClean b true inv).all notMut = true := by
  unfold lbClean
  exact eachRes_all (lbLoop_dry b) _

theorem fipInvStep_dry (b : Backend) (i n : String) :
    (fipInvStep b true i n).all notMut = true := by
  unfold fipInvStep delete_floating_ip
  repeat' split
  all_goals first | rfl | simp_all

theorem sweepFipsPhase_dry (pat : String → Bool) (b : Backend) (known : List String) :
    (sweepFipsPhase pat b true known).all notMut = true := by
  unfold sweepFipsPhase
  repeat' split
  all_goals simp only [List.all_cons, List.all_append, List.all_nil, Bool.and_eq_true,
    Bool.and_true, and_true]
  all_goals repeat' apply And.intro
  all_goals first
    | rfl
    | trivial
    | exact all_flatten_map (fun f => by
        unfold sweepFipStep delete_floating_ip
        repeat' split
        all_goals first | rfl | simp_all)

theorem sweepPortsPhase_dry (pat : String → Bool) (b : Backend) :
    (sweepPortsPhase pat b true).all notMut = true := by
  unfold sweepPortsPhase
  repeat' split
  all_goals simp only [List.all_cons, List.all_append, List.all_nil, Bool.and_eq_true,
    Bool.and_true, and_true]
  all_goals repeat' apply And.intro
  all_goals first
    | rfl
    | trivial
    | exact all_flatten_map (fun p => by
        unfold sweepPortStep
        repeat' split
        all_goals first | rfl | simp_all)

theorem routerStepDry_dry (b : Backend) (i n : String) :
    (routerStepDry b i n).all notMut = true := by
  unfold routerStepDry routerExcReport
  repeat' split
  all_goals simp only [List.all_cons, List.all_append, List.all_nil, Bool.and_eq_true,
    Bool.and_true, and_true]
  all_goals repeat' apply And.intro
  all_goals first
    | rfl
    | trivial
    | exact all_flatten_map (fun p => by
        repeat' split
        all_goals rfl)

theorem networkLoop_dry (b : Backend) (i n : String) :
    ∀ rc a, (networkLoop b true i n a rc).all notMut = true := by
  intro rc
  induction rc with
  | zero => intro a; rfl
  | succ rc ih =>
    intro a
    unfold networkLoop
    repeat' split
    all_goals simp only [List.all_cons, List.all_append, List.all_nil, Bool.and_eq_true,
      Bool.and_true, and_true]
    all_goals repeat' apply And.intro
    all_goals first
      | rfl
      | trivial
      | exact ih _
      | simp_all

theorem secgroupLoop_dry (b : Backend) (i n : String) :
    ∀ rc a, (secgroupLoop b true i n a rc).all notMut = true := by
  intro rc
  induction rc with
  | zero => intro a; rfl
  | succ rc ih =>
    intro a
    unfold secgroupLoop
    repeat' split
    all_goals simp only [List.all_cons, List.all_append, List.all_nil, Bool.and_eq_true,
      Bool.and_true, and_true]
    all_goals repeat' apply And.intro
    all_goals first
      | rfl
      | trivial
      | exact ih _
      | simp_all

theorem networkClean_dry (pat : String → Bool) (b : Backend) (inv : Inventory) :
    (networkClean pat b true inv).all notMut = true := by
  unfold networkClean
  simp only [List.all_append, Bool.and_eq_true]
  refine ⟨⟨⟨⟨⟨?_, ?_⟩, ?_⟩, ?_⟩, ?_⟩, ?_⟩
  · exact eachRes_all (fipInvStep_dry b) _
  · exact sweepFipsPhase_dry pat b _
  · exact sweepPortsPhase_dry pat b
  · exact eachRes_all (fun i n => routerStepDry_dry b i n) _
  · exact eachRes_all (fun i n => networkLoop_dry b i n 3 0) _
  · exact eachRes_all (fun i n => secgroupLoop_dry b i n 3 0) _

theorem cleanersClean_dry (pat : String → Bool) (b : Backend) (inv : Inventory) :
    (cleanersClean pat b true inv).all notMut = true := by
  unfold cleanersClean
  simp only [List.all_append, Bool.and_eq_true]
  exact ⟨⟨⟨⟨advClean_dry b inv, computeClean_dry b inv⟩, storageClean_dry b inv⟩,
    lbClean_dry b inv⟩, networkClean_dry pat b inv⟩

theorem mem_eachRes (step : String → String → List Ev) {i n : String}
    {l : List (String × String)} (hl : (i, n) ∈ l) {a : Ev} (ha : a ∈ step i n) :
    a ∈ eachRes step l := by
  induction l with
  | nil => simp at hl
  | cons x rest ih =>
    obtain ⟨xi, xn⟩ := x
    rw [eachRes]
    rcases List.mem_cons.mp hl with h | h
    · injection h with h1 h2
      subst h1
      subst h2
      exact List.mem_append.mpr (Or.inl ha)
    · exact List.mem_append.mpr (Or.inr (ih h))

theorem mem_instancesPhase {b : Backend} {dry : Bool} {i n : String}
    {l : List (String × String)} (hl : (i, n) ∈ l) {a : Ev}
    (ha : a ∈ (instanceStep b dry i n).1) : a ∈ (instancesPhase b dry l).1 := by
  induction l with
  | nil => simp at hl
  | cons x rest ih =>
    obtain ⟨xi, xn⟩ := x
    rw [instancesPhase]
    rcases List.mem_cons.mp hl with h | h
    · injection h with h1 h2
      subst h1
      subst h2
      exact List.mem_append.mpr (Or.inl ha)
    · exact List.mem_append.mpr (Or.inr (ih h))

/-- C3 counterexample: a volume in the inventory whose dry-run existence check
raises a NotFound is reported as not-found; the dry-run trace contains NO
would-delete report at all, refuting `every resource in the inventory is
still enumerated and reported with a would-delete outcome`. -/
theorem C3_counterexample :
    ({ inv0 with volumes := [("v1", "vol-1")] } : Inventory).volumes = [("v1", "vol-1")]
    ∧ (cleanersClean patTestPrefix { B0 with getVolume := fun _ => some nfPlainExc } true
        { inv0 with volumes := [("v1", "vol-1")] }).all (fun e => !isWouldDelete e) = true
    ∧ Ev.rptNotFound "VOLUME" "vol-1" ∈
        cleanersClean patTestPrefix { B0 with getVolume := fun _ => some nfPlainExc } true
          { inv0 with volumes := [("v1", "vol-1")] } := by
  refine ⟨rfl, by decide, by decide⟩

/-- C3 (amended): with the dry-run flag set, no execution path of any
cleaner's clean() issues a mutating call (delete, update, remove-interface);
and every resource in the inventory whose dry-run existence check (where one
is performed: volumes, snapshots, instances, discovered floating IPs, routers,
networks, security groups — heat stacks, DNS zones, flavors, keypairs, images
and load balancers have none) does not raise is reported with a would-delete
outcome.  A resource whose check raises NotFound is reported as not-found
instead. -/
theorem C3_dry_run (pat : String → Bool) (b : Backend) (inv : Inventory) :
    (∀ e ∈ cleanersClean pat b true inv, isMutating e = false)
    ∧ (∀ i n, (i, n) ∈ inv.heatStacks → b.heatAvail = true →
        Ev.rptDeleted "HEAT STACK" n true ∈ cleanersClean pat b true inv)
    ∧ (∀ i n, (i, n) ∈ inv.dnsZones → b.dnsAvail = true →
        Ev.rptDeleted "DNS ZONE" n true ∈ cleanersClean pat b true inv)
    ∧ (∀ i n s, (i, n) ∈ inv.instances → b.getServer i = .ok s →
        Ev.rptDeleted "INSTANCE" n true ∈ cleanersClean pat b true inv)
    ∧ (∀ i n, (i, n) ∈ inv.flavors →
        Ev.rptDeleted "FLAVOR" n true ∈ cleanersClean pat b true inv)
    ∧ (∀ i n, (i, n) ∈ inv.keypairs →
        Ev.rptDeleted "KEYPAIR" n true ∈ cleanersClean pat b true inv)
    ∧ (∀ i n, (i, n) ∈ inv.images →
        Ev.rptDeleted "IMAGE" n true ∈ cleanersClean pat b true inv)
    ∧ (∀ i n, (i, n) ∈ inv.volumes → b.getVolume i = none →
        Ev.rptDeleted "VOLUME" n true ∈ cleanersClean pat b true inv)
    ∧ (∀ i n, (i, n) ∈ inv.snapshots → b.getSnapshot i = none →
        Ev.rptDeleted "VOLUME SNAPSHOT" n true ∈ cleanersClean pat b true inv)
    ∧ (∀ i n, (i, n) ∈ inv.loadbalancers →
        Ev.rptDeleted "LOAD BALANCER" n true ∈ cleanersClean pat b true inv)
    ∧ (∀ i n f, (i, n) ∈ inv.floatingIps → b.getIp i = .ok f →
        Ev.rptDeleted "FLOATING IP" (fipDisplay f) true ∈ cleanersClean pat b true inv)
    ∧ (∀ i n r ports, (i, n) ∈ inv.routers → b.getRouter i = .ok r →
        b.routerPortsList i = .ok ports →
        Ev.rptDeleted "ROUTER" n true ∈ cleanersClean pat b true inv)
    ∧ (∀ i n, (i, n) ∈ inv.networks → b.getNetworkDry i 0 = none →
        Ev.rptDeleted "NETWORK" n true ∈ cleanersClean pat b true inv)
    ∧ (∀ i n, (i, n) ∈ inv.secGroups → b.getSecgroupDry i 0 = none →
        Ev.rptDeleted "SECURITY GROUP" n true ∈ cleanersClean pat b true inv) := by
  refine ⟨?_, ?_, ?_, ?_, ?_, ?_, ?_, ?_, ?_, ?_, ?_, ?_, ?_, ?_⟩
  · intro e he
    have := forall_mem_of_all (cleanersClean_dry pat b inv) e he
    simpa [notMut] using this
  · intro i n hmem havail
    have h2 := mem_eachRes _ hmem
      (show Ev.rptDeleted "HEAT STACK" n true ∈ heatStep b true i n by simp [heatStep])
    have h3 : Ev.rptDeleted "HEAT STACK" n true ∈ advClean b true inv := by
      simp only [advClean, havail, Bool.true_or, Bool.not_true]
      simp [List.mem_append]
      tauto
    simp only [cleanersClean]
    simp [List.mem_append]
    tauto
  · intro i n hmem havail
    have h2 := mem_eachRes _ hmem
      (show Ev.rptDeleted "DNS ZONE" n true ∈ dnsStep b true i n by simp [dnsStep])
    have h3 : Ev.rptDeleted "DNS ZONE" n true ∈ advClean b true inv := by
      simp only [advClean, havail, Bool.or_true, Bool.not_true]
      simp [List.mem_append]
      tauto
    simp only [cleanersClean]
    simp [List.mem_append]
    tauto
  · intro i n s hmem hs
    have h2 := mem_instancesPhase hmem
      (show Ev.rptDeleted "INSTANCE" n true ∈ (instanceStep b true i n).1 by
        simp [instanceStep, hs])
    have h3 : Ev.rptDeleted "INSTANCE" n true ∈ computeClean b true inv := by
      simp only [computeClean]
      simp [List.mem_append]
      tauto
    simp only [cleanersClean]
    simp [List.mem_append]
    tauto
  · intro i n hmem
    have h2 := mem_eachRes _ hmem
      (show Ev.rptDeleted "FLAVOR" n true ∈ flavorStep b true i n by simp [flavorStep])
    have h3 : Ev.rptDeleted "FLAVOR" n true ∈ computeClean b true inv := by
      simp only [computeClean]
      simp [List.mem_append]
      tauto
    simp only [cleanersClean]
    simp [List.mem_append]
    tauto
  · intro i n hmem
    have h2 := mem_eachRes _ hmem
      (show Ev.rptDeleted "KEYPAIR" n true ∈ keypairStep b true i n by simp [keypairStep])
    have h3 : Ev.rptDeleted "KEYPAIR" n true ∈ computeClean b true inv := by
      simp only [computeClean]
      simp [List.mem_append]
      tauto
    simp only [cleanersClean]
    simp [List.mem_append]
    tauto
  · intro i n hmem
    have h2 := mem_eachRes _ hmem
      (show Ev.rptDeleted "IMAGE" n true ∈ imageStep b true i n by simp [imageStep])
    have h3 : Ev.rptDeleted "IMAGE" n true ∈ computeClean b true inv := by
      simp only [computeClean]
      simp [List.mem_append]
      tauto
    simp only [cleanersClean]
    simp [List.mem_append]
    tauto
  · intro i n hmem hg
    have h2 := mem_eachRes _ hmem
      (show Ev.rptDeleted "VOLUME" n true ∈ volumeStep b true i n by
        simp [volumeStep, hg])
    have h3 : Ev.rptDeleted "VOLUME" n true ∈ storageClean b true inv :=
      List.mem_append.mpr (Or.inl h2)
    simp only [cleanersClean]
    simp [List.mem_append]
    tauto
  · intro i n hmem hg
    have h2 := mem_eachRes _ hmem
      (show Ev.rptDeleted "VOLUME SNAPSHOT" n true ∈ snapshotStep b true i n by
        simp [snapshotStep, hg])
    have h3 : Ev.rptDeleted "VOLUME SNAPSHOT" n true ∈ storageClean b true inv :=
      List.mem_append.mpr (Or.inr h2)
    simp only [cleanersClean]
    simp [List.mem_append]
    tauto
  · intro i n hmem
    have h2 := mem_eachRes (fun i n => lbLoop b true i n 0 3) hmem
      (show Ev.rptDeleted "LOAD BALANCER" n true ∈ lbLoop b true i n 0 3 by
        simp [lbLoop])
    have h3 : Ev.rptDeleted "LOAD BALANCER" n true ∈ lbClean b true inv := h2
    simp only [cleanersClean]
    simp [List.mem_append]
    tauto
  · intro i n f hmem hf
    have h2 := mem_eachRes _ hmem
      (show Ev.rptDeleted "FLOATING IP" (fipDisplay f) true ∈ fipInvStep b true i n by
        simp [fipInvStep, hf, delete_floating_ip])
    have h3 : Ev.rptDeleted "FLOATING IP" (fipDisplay f) true ∈
        networkClean pat b true inv := by
      simp only [networkClean]
      simp [List.mem_append]
      tauto
    simp only [cleanersClean]
    simp [List.mem_append]
    tauto
  · intro i n r ports hmem hg hp
    have h2 := mem_eachRes (fun i n => if true then routerStepDry b i n
        else routerStepLive b i n) hmem
      (show Ev.rptDeleted "ROUTER" n true ∈ routerStepDry b i n by
        simp [routerStepDry, hg, hp])
    have h3 : Ev.rptDeleted "ROUTER" n true ∈ networkClean pat b true inv := by
      simp only [networkClean]
      simp [List.mem_append]
      tauto
    simp only [cleanersClean]
    simp [List.mem_append]
    tauto
  · intro i n hmem hg
    have h2 := mem_eachRes (fun i n => networkLoop b true i n 0 3) hmem
      (show Ev.rptDeleted "NETWORK" n true ∈ networkLoop b true i n 0 3 by
        simp [networkLoop, hg])
    have h3 : Ev.rptDeleted "NETWORK" n true ∈ networkClean pat b true inv := by
      simp only [networkClean]
      simp [List.mem_append]
      tauto
    simp only [cleanersClean]
    simp [List.mem_append]
    tauto
  · intro i n hmem hg
    have h2 := mem_eachRes (fun i n => secgroupLoop b true i n 0 3) hmem
      (show Ev.rptDeleted "SECURITY GROUP" n true ∈ secgroupLoop b true i n 0 3 by
        simp [secgroupLoop, hg])
    have h3 : Ev.rptDeleted "SECURITY GROUP" n true ∈ networkClean pat b true inv := by
      simp only [networkClean]
      simp [List.mem_append]
      tauto
    simp only [cleanersClean]
    simp [List.mem_append]
    tauto

/-- C3 witness: a volume whose dry-run check succeeds is reported
would-delete. -/
theorem C3_dry_run_witness :
    Ev.rptDeleted "VOLUME" "vol-1" true ∈
      cleanersClean patTestPrefix B0 true { inv0 with volumes := [("v1", "vol-1")] } :=
  (C3_dry_run patTestPrefix B0
    { inv0 with volumes := [("v1", "vol-1")] }).2.2.2.2.2.2.2.1
    "v1" "vol-1" (by decide) rfl

end OSC
